import Mathlib

/-!
Verification of the duplicate-resolution core
(`src/as/src/transaction/duplicate_resolve.c`).

The definitions below are a shallow embedding of the C source.  Fabric
messages become a record of optional fields; the rw-request entry becomes a
record of the fields the duplicate-resolution code touches; the external
collaborators (conflict arbiter, retry predicate, completion callback,
record installer, pickle filter, result-code translation) are either
modelled from the spec (the arbiter) or passed in as explicit function
parameters bundled in `Externals`.
-/

namespace DupRes

/-! ## Protocol constants (base/proto.h, fabric rw op tags)

External headers; the spec fixes `OK = 0`, `DUP = 1`, `DUP_ACK = 2` and names
the remaining codes.  Concrete small distinct values are used. -/

def AS_PROTO_RESULT_OK : Nat := 0
def AS_PROTO_RESULT_FAIL_UNKNOWN : Nat := 1
def AS_PROTO_RESULT_FAIL_NOT_FOUND : Nat := 2
def AS_PROTO_RESULT_FAIL_GENERATION : Nat := 3
def AS_PROTO_RESULT_FAIL_RECORD_EXISTS : Nat := 5
def RW_OP_DUP : Nat := 1
def RW_OP_DUP_ACK : Nat := 2

/-- Modelled from the spec: the configured conflict-resolution policy enum —
"higher generation wins, break ties by higher last-update-time" vs. "higher
last-update-time wins, break ties by higher generation" (spec section 3).
The enum itself lives in base/datamodel.h, outside src/. -/
inductive ConflictPolicy where
  | generation
  | lastUpdateTime
  deriving DecidableEq, Repr

/-- Modelled from the spec: one component comparison of the arbiter.
Returns 1 when the right value is higher, -1 when the left value is higher,
0 on a tie. -/
def resolve_component (l r : Nat) : Int :=
  if l < r then 1 else if r < l then -1 else 0

/-- Modelled from the spec: `as_record_resolve_conflict` (base/record.c,
outside src/) — the pure arbiter of spec sections 3 and 4.2.  It compares two
`(generation : u16, last_update_time : u64)` pairs under the policy; the C
prototype takes `uint16_t` generations, so generation arguments are reduced
mod 2^16.  A positive result means the right pair wins, negative means the
left pair wins, zero means the pairs are indistinguishable. -/
def as_record_resolve_conflict (pol : ConflictPolicy) (left_gen left_lut right_gen right_lut : Nat) : Int :=
  let lg := left_gen % 65536
  let rg := right_gen % 65536
  match pol with
  | .generation =>
      if resolve_component lg rg ≠ 0 then resolve_component lg rg
      else resolve_component left_lut right_lut
  | .lastUpdateTime =>
      if resolve_component left_lut right_lut ≠ 0 then resolve_component left_lut right_lut
      else resolve_component lg rg

/-! ## Fabric messages -/

/-- Typed view of a fabric `RW` message: each wire field is present or
absent.  `msg_get_*` returning non-zero in C corresponds to the field being
`none` here. -/
structure Msg where
  op : Option Nat := none
  result : Option Nat := none
  namespace_name : Option (List Nat) := none
  ns_id : Option Nat := none
  digest : Option Nat := none
  tid : Option Nat := none
  cluster_key : Option Nat := none
  generation : Option Nat := none
  last_update_time : Option Nat := none
  void_time : Option Nat := none
  record : Option (List Nat) := none
  set_name : Option (List Nat) := none
  key : Option (List Nat) := none
  info : Option Nat := none
  deriving DecidableEq, Repr

/-- `msg_preserve_fields(m, 3, RW_FIELD_NS_ID, RW_FIELD_DIGEST, RW_FIELD_TID)`:
the three identity fields are copy-retained, every other field is cleared so
the message can be reused for the ack. -/
def msg_preserve_identity (m : Msg) : Msg :=
  { ns_id := m.ns_id, digest := m.digest, tid := m.tid }

/-! ## The rw-request entry and external collaborators -/

/-- The fields of `rw_request` (transaction/rw_request.h, outside src/) that
the duplicate-resolution code reads or writes, as named by the spec's data
model (section 3): identity, per-peer completion flags, running best
candidate, terminal flag, moved client payload (`msgp`, modelled by an
identifier), the origin handle (`from.any`, modelled by a Bool: non-null or
null), the final result code and the namespace's conflict policy
(`rsv.ns.conflict_resolution_policy`). -/
structure RwRequest where
  tid : Nat
  dup_res_complete : Bool
  dest_nodes : List Nat
  dest_complete : List Bool
  best_dup_msg : Option Msg
  best_dup_result_code : Nat
  best_dup_gen : Nat
  best_dup_lut : Nat
  msgp : Option Nat
  from_any : Bool
  result_code : Nat
  policy : ConflictPolicy
  deriving DecidableEq, Repr

/-- External collaborators of the coordinator, passed explicitly:
`dup_res_should_retry_transaction` (predicate on the parsed result code),
the completion callback `dup_res_cb` (returns whether to delete from the
hash), `dup_res_translate_result_code` (maps best result code and current
result code to the client-visible result code), `dup_res_ignore_pickle`
(pickle buffer and info bitfield) and `as_record_replace_if_better`
(policy, generation, lut, pickle, info, void-time, set-name, key to a
result code). -/
structure Externals where
  should_retry : Nat → Bool
  dup_res_cb : RwRequest → Bool
  translate_result : Nat → Nat → Nat
  ignore_pickle : List Nat → Nat → Bool
  replace_if_better : ConflictPolicy → Nat → Nat → List Nat → Nat → Nat →
    Option (List Nat) → Option (List Nat) → Nat

/-- Modelled from the spec: `index_of_node` (transaction/rw_utils, outside
src/) — "find i = index_of(peer, dest_nodes); if -1 the peer is not a
recognized duplicate" (spec section 4.4.3 step 2).  First index of the node
in the list, or none. -/
def index_of_node (node : Nat) : List Nat → Option Nat
  | [] => none
  | x :: t => if x = node then some 0 else (index_of_node node t).map (· + 1)

/-- The restarted transaction enqueued on the retry path: it takes over the
client message payload and carries `FROM_FLAG_RESTART`. -/
structure RetryTr where
  msgp : Option Nat
  restart : Bool
  deriving DecidableEq, Repr

/-- Observable outcome of one `dup_res_handle_ack` call: the entry state
after the call, whether `as_fabric_msg_put` was called on the incoming
message, whether the previous best message was released, the enqueued
restart transaction if any, whether the entry was removed from the hash
table, and whether `dup_res_cb` was invoked. -/
structure HandleAckResult where
  rw : RwRequest
  msgPut : Bool
  prevBestPut : Bool
  enqueued : Option RetryTr
  removedFromHash : Bool
  cbInvoked : Bool
  deriving DecidableEq, Repr

/-- `parse_dup_meta` (duplicate_resolve.c lines 487-513).  Returns the
result code together with the final values of the caller's
`generation`/`last_update_time` variables (initialized to 0 by the caller;
the C writes through the pointers exactly when the corresponding
`msg_get` succeeds, so a present generation survives a missing
last-update-time). -/
def parse_dup_meta (m : Msg) : Nat × Nat × Nat :=
  match m.result with
  | none => (AS_PROTO_RESULT_FAIL_UNKNOWN, 0, 0)
  | some result_code =>
    if result_code ≠ AS_PROTO_RESULT_OK then (result_code, 0, 0)
    else
      match m.generation with
      | none => (AS_PROTO_RESULT_FAIL_UNKNOWN, 0, 0)
      | some g =>
        if g = 0 then (AS_PROTO_RESULT_FAIL_UNKNOWN, 0, 0)
        else
          match m.last_update_time with
          | none => (AS_PROTO_RESULT_FAIL_UNKNOWN, g, 0)
          | some lut => (AS_PROTO_RESULT_OK, g, lut)

/-- Result of `apply_winner`: the entry afterwards and whether the installer
`as_record_replace_if_better` was invoked. -/
structure ApplyWinnerResult where
  rw : RwRequest
  installed : Bool
  deriving DecidableEq, Repr

/-- `apply_winner` (duplicate_resolve.c lines 516-561).  Reads the best
ack's message; a missing or short (< 2 bytes) pickle or an ignorable pickle
records `UNKNOWN_FAIL` without installing; otherwise the installer runs and
the benign codes `RECORD_EXISTS`/`GENERATION` are mapped to `OK`.  The
result code is stored through a `uint8_t` field, hence the mod 256.  The
caller guarantees `best_dup_msg` is non-null; the none branch is never
reached. -/
def apply_winner (ext : Externals) (rw : RwRequest) : ApplyWinnerResult :=
  match rw.best_dup_msg with
  | none => ⟨rw, false⟩
  | some m =>
    match m.record with
    | none => ⟨{ rw with result_code := AS_PROTO_RESULT_FAIL_UNKNOWN }, false⟩
    | some buf =>
      if buf.length < 2 then
        ⟨{ rw with result_code := AS_PROTO_RESULT_FAIL_UNKNOWN }, false⟩
      else
        let info := m.info.getD 0
        if ext.ignore_pickle buf info then
          ⟨{ rw with result_code := AS_PROTO_RESULT_FAIL_UNKNOWN }, false⟩
        else
          let rc := ext.replace_if_better rw.policy rw.best_dup_gen rw.best_dup_lut
            buf info (m.void_time.getD 0) m.set_name m.key % 256
          if rc = AS_PROTO_RESULT_FAIL_RECORD_EXISTS ∨ rc = AS_PROTO_RESULT_FAIL_GENERATION then
            ⟨{ rw with result_code := AS_PROTO_RESULT_OK }, true⟩
          else
            ⟨{ rw with result_code := rc }, true⟩

/-- `dup_res_handle_ack` (duplicate_resolve.c lines 273-436).  The pre-lock
phase parses `ns_id`, `digest`, `tid` and looks the entry up in the hash
table; here the entry found is passed in as `rw`.  Drop paths return the
entry unchanged with the message released. -/
def dup_res_handle_ack (ext : Externals) (node : Nat) (m : Msg) (rw : RwRequest) :
    HandleAckResult :=
  if m.ns_id = none ∨ m.digest = none ∨ m.tid = none then
    ⟨rw, true, false, none, false, false⟩
  else if m.tid ≠ some rw.tid ∨ rw.dup_res_complete = true then
    ⟨rw, true, false, none, false, false⟩
  else
    match index_of_node node rw.dest_nodes with
    | none => ⟨rw, true, false, none, false, false⟩
    | some i =>
      if rw.dest_complete.getD i false = true then
        ⟨rw, true, false, none, false, false⟩
      else
        let rw1 := { rw with dest_complete := rw.dest_complete.set i true }
        let pm := parse_dup_meta m
        let result_code := pm.1
        let generation := pm.2.1
        let last_update_time := pm.2.2
        if ext.should_retry result_code = true then
          if rw1.from_any = false then
            ⟨rw1, true, false, none, false, false⟩
          else
            ⟨{ rw1 with msgp := none, dup_res_complete := true }, true, false,
              some ⟨rw1.msgp, true⟩, true, false⟩
        else
          let keep_previous_best := rw1.best_dup_msg.isSome = true ∧
            as_record_resolve_conflict rw1.policy rw1.best_dup_gen rw1.best_dup_lut
              (generation % 65536) last_update_time ≤ 0
          let stepped :=
            if keep_previous_best then (rw1, false, true)
            else
              ({ rw1 with
                  best_dup_msg := some m,
                  best_dup_result_code := result_code % 256,
                  best_dup_gen := generation,
                  best_dup_lut := last_update_time },
               rw1.best_dup_msg.isSome, false)
          let rw2 := stepped.1
          let prevPut := stepped.2.1
          let mPut := stepped.2.2
          if rw2.dest_complete.all (fun b => b) = false then
            ⟨rw2, mPut, prevPut, none, false, false⟩
          else
            let rw3 := if rw2.best_dup_result_code = AS_PROTO_RESULT_OK then
                (apply_winner ext rw2).rw
              else rw2
            if rw3.from_any = false then
              ⟨rw3, mPut, prevPut, none, false, false⟩
            else
              let rw4 := { rw3 with
                result_code := ext.translate_result rw3.best_dup_result_code rw3.result_code }
              let delete_from_hash := ext.dup_res_cb rw4
              ⟨{ rw4 with dup_res_complete := true }, mPut, prevPut, none,
                delete_from_hash, true⟩

/-- Sequential arrival of a list of acks at one entry (each handler call
holds the entry lock for its whole body, so concurrent arrivals serialize
into some order). -/
def process_acks (ext : Externals) (acks : List (Nat × Msg)) (rw : RwRequest) : RwRequest :=
  acks.foldl (fun r p => (dup_res_handle_ack ext p.1 p.2 r).rw) rw

/-- The entry as armed by `dup_res_setup_rw` (duplicate_resolve.c lines
107-146): per-peer completion flags all false, no best candidate yet (the
best fields are zeroed by rw_request creation), terminal flag clear, the
client payload moved in and the origin handle present. -/
def dup_res_setup_rw (tid : Nat) (pol : ConflictPolicy) (dupl_nodes : List Nat)
    (msgp : Option Nat) : RwRequest :=
  { tid := tid, dup_res_complete := false, dest_nodes := dupl_nodes,
    dest_complete := dupl_nodes.map (fun _ => false), best_dup_msg := none,
    best_dup_result_code := 0, best_dup_gen := 0, best_dup_lut := 0,
    msgp := msgp, from_any := true, result_code := 0, policy := pol }

/-! ## Request-side responder -/

/-- A namespace as the responder needs it: its conflict-resolution policy
(`ns->conflict_resolution_policy`). -/
structure Namespace where
  policy : ConflictPolicy
  deriving DecidableEq, Repr

/-- The local record as read through the partition tree and storage:
index metadata (`r->generation`, `r->last_update_time`, `r->void_time`),
the optional set name and stored user key, the pickle produced by
`as_record_pickle` and the `info` bitfield from `dup_res_pack_info`. -/
structure LocalRecord where
  generation : Nat
  last_update_time : Nat
  void_time : Nat
  set_name : Option (List Nat)
  key : Option (List Nat)
  pickle : List Nat
  info : Nat
  deriving DecidableEq, Repr

/-- External collaborators of the responder: `as_namespace_get_bybuf`,
`as_record_get` on the reserved partition's tree (the record for the
request's digest, or none), and the return values of
`as_storage_rd_load_n_bins` / `as_storage_rd_load_bins` (negative on
storage error). -/
structure ResponderEnv where
  lookup_ns : List Nat → Option Namespace
  record : Option LocalRecord
  load_n_bins : Int
  load_bins : Int

/-- Observable outcome of one `dup_res_handle_request` call: the ack sent,
whether `as_partition_reserve` ran, whether `as_record_get` ran, and
whether `done_handle_request` released the acquired resources. -/
structure HandleRequestResult where
  ack : Msg
  reserved : Bool
  recordAccessed : Bool
  released : Bool
  deriving DecidableEq, Repr

/-- `send_dup_res_ack` (duplicate_resolve.c lines 461-470): tag the message
`DUP_ACK`, set the result and send it. -/
def send_dup_res_ack (m : Msg) (result : Nat) : Msg :=
  { m with op := some RW_OP_DUP_ACK, result := some result }

/-- `send_ack_for_bad_request` (duplicate_resolve.c lines 473-484): keep
only the three identity fields, tag `DUP_ACK`, set `UNKNOWN_FAIL` and
send. -/
def send_ack_for_bad_request (m : Msg) : Msg :=
  { msg_preserve_identity m with
      op := some RW_OP_DUP_ACK,
      result := some AS_PROTO_RESULT_FAIL_UNKNOWN }

/-- `dup_res_handle_request` (duplicate_resolve.c lines 149-270). -/
def dup_res_handle_request (env : ResponderEnv) (m : Msg) : HandleRequestResult :=
  if m.digest = none then
    ⟨send_ack_for_bad_request m, false, false, false⟩
  else if m.namespace_name = none then
    ⟨send_ack_for_bad_request m, false, false, false⟩
  else
    match env.lookup_ns (m.namespace_name.getD []) with
    | none => ⟨send_ack_for_bad_request m, false, false, false⟩
    | some ns =>
      let generation := m.generation.getD 0
      let last_update_time := m.last_update_time.getD 0
      let local_conflict_check := m.generation.isSome && m.last_update_time.isSome
      let m1 := msg_preserve_identity m
      match env.record with
      | none => ⟨send_dup_res_ack m1 AS_PROTO_RESULT_FAIL_NOT_FOUND, true, true, true⟩
      | some r =>
        let result := as_record_resolve_conflict ns.policy generation last_update_time
          r.generation r.last_update_time
        if local_conflict_check = true ∧ result ≤ 0 then
          ⟨send_dup_res_ack m1 (if result = 0 then AS_PROTO_RESULT_FAIL_RECORD_EXISTS
            else AS_PROTO_RESULT_FAIL_GENERATION), true, true, true⟩
        else if env.load_n_bins < 0 then
          ⟨send_dup_res_ack m1 (-env.load_n_bins).toNat, true, true, true⟩
        else if env.load_bins < 0 then
          ⟨send_dup_res_ack m1 (-env.load_bins).toNat, true, true, true⟩
        else
          let m2 := { m1 with
            record := some r.pickle,
            set_name := r.set_name,
            key := r.key,
            generation := some r.generation,
            last_update_time := some r.last_update_time,
            void_time := if r.void_time ≠ 0 then some r.void_time else none,
            info := if r.info ≠ 0 then some r.info else none }
          ⟨send_dup_res_ack m2 AS_PROTO_RESULT_OK, true, true, true⟩

/-! ## Basic list and index lemmas -/

theorem index_of_node_lt_length {node : Nat} {l : List Nat} :
    ∀ {i : Nat}, index_of_node node l = some i → i < l.length := by
  induction l with
  | nil => intro i h; simp [index_of_node] at h
  | cons x t ih =>
    intro i h
    unfold index_of_node at h
    split at h
    · cases h; simp
    · rcases Option.map_eq_some'.mp h with ⟨j, hj, rfl⟩
      have := ih hj
      simp only [List.length_cons]
      omega

theorem getD_set_self :
    ∀ (l : List Bool) (i : Nat) (b : Bool), i < l.length → (l.set i b).getD i false = b := by
  intro l
  induction l with
  | nil => intro i b h; simp at h
  | cons x t ih =>
    intro i b h
    cases i with
    | zero => simp [List.set]
    | succ j =>
      have hj : j < t.length := by simpa using h
      simpa [List.set] using ih j b hj

/-! ## Drop and progress lemmas for `dup_res_handle_ack` -/

/-- When any of the guard checks fires, `dup_res_handle_ack` releases the
message and leaves the entry untouched. -/
theorem dup_res_handle_ack_drop (ext : Externals) (node : Nat) (m : Msg) (rw : RwRequest)
    (h : m.ns_id = none ∨ m.digest = none ∨ m.tid = none ∨
      m.tid ≠ some rw.tid ∨ rw.dup_res_complete = true ∨
      index_of_node node rw.dest_nodes = none ∨
      (∃ i, index_of_node node rw.dest_nodes = some i ∧
        rw.dest_complete.getD i false = true)) :
    dup_res_handle_ack ext node m rw = ⟨rw, true, false, none, false, false⟩ := by
  unfold dup_res_handle_ack
  split
  · rfl
  next hA =>
    split
    · rfl
    next hB =>
      split
      next hidx => rfl
      next i hidx =>
        split
        · rfl
        next hC =>
          exfalso
          rcases h with h | h | h | h | h | h | ⟨j, hj, hcj⟩
          · exact hA (Or.inl h)
          · exact hA (Or.inr (Or.inl h))
          · exact hA (Or.inr (Or.inr h))
          · exact hB (Or.inl h)
          · exact hB (Or.inr h)
          · rw [hidx] at h; exact Option.noConfusion h
          · rw [hidx] at hj
            cases hj
            exact hC hcj

/-- `apply_winner` changes only the entry's `result_code`. -/
theorem apply_winner_rw_eq (ext : Externals) (rw : RwRequest) :
    (apply_winner ext rw).rw =
      { rw with result_code := (apply_winner ext rw).rw.result_code } := by
  unfold apply_winner
  split
  · rfl
  · split
    · rfl
    · split
      · rfl
      · dsimp only
        split
        · rfl
        · split
          · rfl
          · rfl

/-- Guard-passing ack whose parsed result code triggers a retry, arriving
after the timeout thread cleared the origin: the only entry mutation is the
peer's completion flag. -/
theorem dup_res_handle_ack_retry_null (ext : Externals) (node : Nat) (m : Msg)
    (rw : RwRequest) (i : Nat)
    (hA : ¬ (m.ns_id = none ∨ m.digest = none ∨ m.tid = none))
    (hB : ¬ (m.tid ≠ some rw.tid ∨ rw.dup_res_complete = true))
    (hi : index_of_node node rw.dest_nodes = some i)
    (hC : ¬ rw.dest_complete.getD i false = true)
    (hr : ext.should_retry (parse_dup_meta m).1 = true)
    (hf : rw.from_any = false) :
    dup_res_handle_ack ext node m rw =
      ⟨{ rw with dest_complete := rw.dest_complete.set i true }, true, false,
        none, false, false⟩ := by
  unfold dup_res_handle_ack
  rw [if_neg hA, if_neg hB]
  simp only [hi]
  rw [if_neg hC]
  try dsimp only
  rw [if_pos hr, if_pos hf]

/-- Guard-passing ack whose parsed result code triggers a retry, with the
origin still present: the client payload moves into a fresh restart
transaction, the entry goes terminal and leaves the hash table, and the
callback is not invoked. -/
theorem dup_res_handle_ack_retry (ext : Externals) (node : Nat) (m : Msg)
    (rw : RwRequest) (i : Nat)
    (hA : ¬ (m.ns_id = none ∨ m.digest = none ∨ m.tid = none))
    (hB : ¬ (m.tid ≠ some rw.tid ∨ rw.dup_res_complete = true))
    (hi : index_of_node node rw.dest_nodes = some i)
    (hC : ¬ rw.dest_complete.getD i false = true)
    (hr : ext.should_retry (parse_dup_meta m).1 = true)
    (hf : rw.from_any = true) :
    dup_res_handle_ack ext node m rw =
      ⟨{ rw with
          dest_complete := rw.dest_complete.set i true,
          msgp := none,
          dup_res_complete := true }, true, false,
        some ⟨rw.msgp, true⟩, true, false⟩ := by
  have hf' : ¬ (rw.from_any = false) := by simp [hf]
  unfold dup_res_handle_ack
  rw [if_neg hA, if_neg hB]
  simp only [hi]
  rw [if_neg hC]
  try dsimp only
  rw [if_pos hr, if_neg hf']

/-- Guard-passing non-retry ack that loses to (or ties) the current best:
the incoming message is released, the best candidate is untouched, and only
the peer's completion flag changes among the tracked fields. -/
theorem dup_res_handle_ack_keep (ext : Externals) (node : Nat) (m : Msg)
    (rw : RwRequest) (i : Nat)
    (hA : ¬ (m.ns_id = none ∨ m.digest = none ∨ m.tid = none))
    (hB : ¬ (m.tid ≠ some rw.tid ∨ rw.dup_res_complete = true))
    (hi : index_of_node node rw.dest_nodes = some i)
    (hC : ¬ rw.dest_complete.getD i false = true)
    (hr : ext.should_retry (parse_dup_meta m).1 = false)
    (hkeep : rw.best_dup_msg.isSome = true ∧
      as_record_resolve_conflict rw.policy rw.best_dup_gen rw.best_dup_lut
        ((parse_dup_meta m).2.1 % 65536) (parse_dup_meta m).2.2 ≤ 0) :
    (dup_res_handle_ack ext node m rw).rw.tid = rw.tid ∧
    (dup_res_handle_ack ext node m rw).rw.dest_nodes = rw.dest_nodes ∧
    (dup_res_handle_ack ext node m rw).rw.policy = rw.policy ∧
    (dup_res_handle_ack ext node m rw).rw.from_any = rw.from_any ∧
    (dup_res_handle_ack ext node m rw).rw.msgp = rw.msgp ∧
    (dup_res_handle_ack ext node m rw).rw.dest_complete = rw.dest_complete.set i true ∧
    (dup_res_handle_ack ext node m rw).enqueued = none ∧
    ((rw.dest_complete.set i true).all (fun b => b) = false →
      (dup_res_handle_ack ext node m rw).rw.dup_res_complete = false ∧
      (dup_res_handle_ack ext node m rw).cbInvoked = false) ∧
    (dup_res_handle_ack ext node m rw).rw.best_dup_msg = rw.best_dup_msg ∧
    (dup_res_handle_ack ext node m rw).rw.best_dup_gen = rw.best_dup_gen ∧
    (dup_res_handle_ack ext node m rw).rw.best_dup_lut = rw.best_dup_lut ∧
    (dup_res_handle_ack ext node m rw).rw.best_dup_result_code = rw.best_dup_result_code ∧
    (dup_res_handle_ack ext node m rw).msgPut = true ∧
    (dup_res_handle_ack ext node m rw).prevBestPut = false := by
  have hr' : ¬ (ext.should_retry (parse_dup_meta m).1 = true) := by simp [hr]
  have hnc : rw.dup_res_complete = false := by
    cases hdc : rw.dup_res_complete
    · rfl
    · exact absurd (Or.inr hdc) hB
  unfold dup_res_handle_ack
  rw [if_neg hA, if_neg hB]
  simp only [hi]
  rw [if_neg hC]
  try dsimp only
  rw [if_neg hr', if_pos hkeep]
  try dsimp only
  split
  next hall =>
    exact ⟨rfl, rfl, rfl, rfl, rfl, rfl, rfl, fun _ => ⟨hnc, rfl⟩, rfl, rfl, rfl, rfl,
      rfl, rfl⟩
  next hall =>
    split
    next hok =>
      rw [apply_winner_rw_eq]
      split
      next hfrom =>
        exact ⟨rfl, rfl, rfl, rfl, rfl, rfl, rfl, fun h => absurd h hall, rfl, rfl, rfl,
          rfl, rfl, rfl⟩
      next hfrom =>
        exact ⟨rfl, rfl, rfl, rfl, rfl, rfl, rfl, fun h => absurd h hall, rfl, rfl, rfl,
          rfl, rfl, rfl⟩
    next hok =>
      split
      next hfrom =>
        exact ⟨rfl, rfl, rfl, rfl, rfl, rfl, rfl, fun h => absurd h hall, rfl, rfl, rfl,
          rfl, rfl, rfl⟩
      next hfrom =>
        exact ⟨rfl, rfl, rfl, rfl, rfl, rfl, rfl, fun h => absurd h hall, rfl, rfl, rfl,
          rfl, rfl, rfl⟩

/-- Guard-passing non-retry ack that becomes the new best (no previous best,
or this one wins): the message is stored, the previous best (if any) is
released, and the best fields take the parsed metadata — the generation
unreduced, the result code through the `uint8_t` field. -/
theorem dup_res_handle_ack_store (ext : Externals) (node : Nat) (m : Msg)
    (rw : RwRequest) (i : Nat)
    (hA : ¬ (m.ns_id = none ∨ m.digest = none ∨ m.tid = none))
    (hB : ¬ (m.tid ≠ some rw.tid ∨ rw.dup_res_complete = true))
    (hi : index_of_node node rw.dest_nodes = some i)
    (hC : ¬ rw.dest_complete.getD i false = true)
    (hr : ext.should_retry (parse_dup_meta m).1 = false)
    (hkeep : ¬ (rw.best_dup_msg.isSome = true ∧
      as_record_resolve_conflict rw.policy rw.best_dup_gen rw.best_dup_lut
        ((parse_dup_meta m).2.1 % 65536) (parse_dup_meta m).2.2 ≤ 0)) :
    (dup_res_handle_ack ext node m rw).rw.tid = rw.tid ∧
    (dup_res_handle_ack ext node m rw).rw.dest_nodes = rw.dest_nodes ∧
    (dup_res_handle_ack ext node m rw).rw.policy = rw.policy ∧
    (dup_res_handle_ack ext node m rw).rw.from_any = rw.from_any ∧
    (dup_res_handle_ack ext node m rw).rw.msgp = rw.msgp ∧
    (dup_res_handle_ack ext node m rw).rw.dest_complete = rw.dest_complete.set i true ∧
    (dup_res_handle_ack ext node m rw).enqueued = none ∧
    ((rw.dest_complete.set i true).all (fun b => b) = false →
      (dup_res_handle_ack ext node m rw).rw.dup_res_complete = false ∧
      (dup_res_handle_ack ext node m rw).cbInvoked = false) ∧
    (dup_res_handle_ack ext node m rw).rw.best_dup_msg = some m ∧
    (dup_res_handle_ack ext node m rw).rw.best_dup_gen = (parse_dup_meta m).2.1 ∧
    (dup_res_handle_ack ext node m rw).rw.best_dup_lut = (parse_dup_meta m).2.2 ∧
    (dup_res_handle_ack ext node m rw).rw.best_dup_result_code = (parse_dup_meta m).1 % 256 ∧
    (dup_res_handle_ack ext node m rw).msgPut = false ∧
    (dup_res_handle_ack ext node m rw).prevBestPut = rw.best_dup_msg.isSome := by
  have hr' : ¬ (ext.should_retry (parse_dup_meta m).1 = true) := by simp [hr]
  have hnc : rw.dup_res_complete = false := by
    cases hdc : rw.dup_res_complete
    · rfl
    · exact absurd (Or.inr hdc) hB
  unfold dup_res_handle_ack
  rw [if_neg hA, if_neg hB]
  simp only [hi]
  rw [if_neg hC]
  try dsimp only
  rw [if_neg hr', if_neg hkeep]
  try dsimp only
  split
  next hall =>
    exact ⟨rfl, rfl, rfl, rfl, rfl, rfl, rfl, fun _ => ⟨hnc, rfl⟩, rfl, rfl, rfl, rfl,
      rfl, rfl⟩
  next hall =>
    split
    next hok =>
      rw [apply_winner_rw_eq]
      split
      next hfrom =>
        exact ⟨rfl, rfl, rfl, rfl, rfl, rfl, rfl, fun h => absurd h hall, rfl, rfl, rfl,
          rfl, rfl, rfl⟩
      next hfrom =>
        exact ⟨rfl, rfl, rfl, rfl, rfl, rfl, rfl, fun h => absurd h hall, rfl, rfl, rfl,
          rfl, rfl, rfl⟩
    next hok =>
      split
      next hfrom =>
        exact ⟨rfl, rfl, rfl, rfl, rfl, rfl, rfl, fun h => absurd h hall, rfl, rfl, rfl,
          rfl, rfl, rfl⟩
      next hfrom =>
        exact ⟨rfl, rfl, rfl, rfl, rfl, rfl, rfl, fun h => absurd h hall, rfl, rfl, rfl,
          rfl, rfl, rfl⟩

/-! ## Concrete fixtures shared by witnesses and counterexamples -/

/-- Modelled from the spec: a result code "indicating stale cluster state"
(spec section 4.4.3 step 6), for which the retry predicate answers yes —
the cluster-key-mismatch code of base/proto.h. -/
def AS_PROTO_RESULT_FAIL_CLUSTER_KEY_MISMATCH : Nat := 11

/-- Concrete instantiation of the external collaborators: retry exactly on
cluster-key mismatch, callback requests hash deletion, translation passes
the best result code through, no pickle is ignored, installer reports OK. -/
def ext0 : Externals :=
  { should_retry := fun rc => rc == AS_PROTO_RESULT_FAIL_CLUSTER_KEY_MISMATCH,
    dup_res_cb := fun _ => true,
    translate_result := fun best _ => best,
    ignore_pickle := fun _ _ => false,
    replace_if_better := fun _ _ _ _ _ _ _ _ => AS_PROTO_RESULT_OK }

/-- A freshly armed single-peer entry: tid 7, generation policy, one
duplicate-holding peer (node 5), client payload 3. -/
def rw_ex : RwRequest := dup_res_setup_rw 7 ConflictPolicy.generation [5] (some 3)

/-- The same entry with the peer already marked complete. -/
def rw_done : RwRequest := { rw_ex with dest_complete := [true] }

/-- A well-formed OK ack for `rw_ex` from node 5. -/
def msg_ok : Msg :=
  { ns_id := some 1, digest := some 2, tid := some 7, result := some AS_PROTO_RESULT_OK,
    generation := some 4, last_update_time := some 100 }

/-- An ack carrying a stale tid (9, while the entry holds 7). -/
def msg_stale : Msg := { ns_id := some 1, digest := some 2, tid := some 9 }

/-! ## Claims C4 and C5 -/

/-- Claim C4: ack processing is idempotent per peer.  For an entry whose
`dest_complete` flag for the acking peer is already true the ack is dropped
and the entry left unchanged; and feeding the same ack `(peer, m)` twice in
succession produces the same entry state as feeding it once (for an entry
whose flag list matches its node list in length, as `dup_res_setup_rw`
guarantees). -/
theorem claim_C4_ack_idempotent (ext : Externals) (node : Nat) (m : Msg) (rw : RwRequest)
    (hlen : rw.dest_complete.length = rw.dest_nodes.length) :
    (∀ i, index_of_node node rw.dest_nodes = some i →
      rw.dest_complete.getD i false = true →
      dup_res_handle_ack ext node m rw = ⟨rw, true, false, none, false, false⟩) ∧
    (dup_res_handle_ack ext node m (dup_res_handle_ack ext node m rw).rw).rw =
      (dup_res_handle_ack ext node m rw).rw := by
  constructor
  · intro i hi hc
    exact dup_res_handle_ack_drop ext node m rw
      (Or.inr (Or.inr (Or.inr (Or.inr (Or.inr (Or.inr ⟨i, hi, hc⟩))))))
  · rcases Decidable.em (m.ns_id = none ∨ m.digest = none ∨ m.tid = none) with hA | hA
    · have h1 := dup_res_handle_ack_drop ext node m rw (by
        rcases hA with h | h | h
        · exact Or.inl h
        · exact Or.inr (Or.inl h)
        · exact Or.inr (Or.inr (Or.inl h)))
      simp only [h1]
    · rcases Decidable.em (m.tid ≠ some rw.tid ∨ rw.dup_res_complete = true) with hB | hB
      · have h1 := dup_res_handle_ack_drop ext node m rw (by
          rcases hB with h | h
          · exact Or.inr (Or.inr (Or.inr (Or.inl h)))
          · exact Or.inr (Or.inr (Or.inr (Or.inr (Or.inl h)))))
        simp only [h1]
      · cases hidx : index_of_node node rw.dest_nodes with
        | none =>
          have h1 := dup_res_handle_ack_drop ext node m rw
            (Or.inr (Or.inr (Or.inr (Or.inr (Or.inr (Or.inl hidx))))))
          simp only [h1]
        | some i =>
          rcases Decidable.em (rw.dest_complete.getD i false = true) with hC | hC
          · have h1 := dup_res_handle_ack_drop ext node m rw
              (Or.inr (Or.inr (Or.inr (Or.inr (Or.inr (Or.inr ⟨i, hidx, hC⟩))))))
            simp only [h1]
          · have hilt : i < rw.dest_complete.length := by
              rw [hlen]; exact index_of_node_lt_length hidx
            have hset := getD_set_self rw.dest_complete i true hilt
            rcases Decidable.em (ext.should_retry (parse_dup_meta m).1 = true) with hr | hr
            · rcases Decidable.em (rw.from_any = false) with hf | hf
              · have h1 := dup_res_handle_ack_retry_null ext node m rw i hA hB hidx hC hr hf
                have h2 := dup_res_handle_ack_drop ext node m
                  { rw with dest_complete := rw.dest_complete.set i true }
                  (Or.inr (Or.inr (Or.inr (Or.inr (Or.inr (Or.inr ⟨i, hidx, hset⟩))))))
                simp only [h1, h2]
              · have hf' : rw.from_any = true := by
                  cases hft : rw.from_any
                  · exact absurd hft hf
                  · rfl
                have h1 := dup_res_handle_ack_retry ext node m rw i hA hB hidx hC hr hf'
                have h2 := dup_res_handle_ack_drop ext node m
                  { rw with
                      dest_complete := rw.dest_complete.set i true,
                      msgp := none,
                      dup_res_complete := true }
                  (Or.inr (Or.inr (Or.inr (Or.inr (Or.inl rfl)))))
                simp only [h1, h2]
            · have hr' : ext.should_retry (parse_dup_meta m).1 = false := by
                cases hrt : ext.should_retry (parse_dup_meta m).1
                · rfl
                · exact absurd hrt hr
              have hres : (dup_res_handle_ack ext node m rw).rw.dest_nodes = rw.dest_nodes ∧
                  (dup_res_handle_ack ext node m rw).rw.dest_complete =
                    rw.dest_complete.set i true := by
                rcases Decidable.em (rw.best_dup_msg.isSome = true ∧
                    as_record_resolve_conflict rw.policy rw.best_dup_gen rw.best_dup_lut
                      ((parse_dup_meta m).2.1 % 65536) (parse_dup_meta m).2.2 ≤ 0) with hk | hk
                · obtain ⟨_, h2, _, _, _, h6, _⟩ :=
                    dup_res_handle_ack_keep ext node m rw i hA hB hidx hC hr' hk
                  exact ⟨h2, h6⟩
                · obtain ⟨_, h2, _, _, _, h6, _⟩ :=
                    dup_res_handle_ack_store ext node m rw i hA hB hidx hC hr' hk
                  exact ⟨h2, h6⟩
              have hidx2 : index_of_node node (dup_res_handle_ack ext node m rw).rw.dest_nodes =
                  some i := by
                rw [hres.1]; exact hidx
              have hset2 : (dup_res_handle_ack ext node m rw).rw.dest_complete.getD i false =
                  true := by
                rw [hres.2]; exact hset
              have h2 := dup_res_handle_ack_drop ext node m (dup_res_handle_ack ext node m rw).rw
                (Or.inr (Or.inr (Or.inr (Or.inr (Or.inr (Or.inr ⟨i, hidx2, hset2⟩))))))
              simp only [h2]

/-- Witness for claim C4 at a concrete entry with its single peer already
complete, fed a concrete OK ack. -/
theorem claim_C4_witness :
    (∀ i, index_of_node 5 rw_done.dest_nodes = some i →
      rw_done.dest_complete.getD i false = true →
      dup_res_handle_ack ext0 5 msg_ok rw_done = ⟨rw_done, true, false, none, false, false⟩) ∧
    (dup_res_handle_ack ext0 5 msg_ok (dup_res_handle_ack ext0 5 msg_ok rw_done).rw).rw =
      (dup_res_handle_ack ext0 5 msg_ok rw_done).rw :=
  claim_C4_ack_idempotent ext0 5 msg_ok rw_done (by decide)

/-- Claim C5: an ack whose tid differs from the entry's tid, or one arriving
after `dup_res_complete` is set, is dropped without mutating any field of
the entry — no completion flag, no best-candidate change, no callback, no
enqueue, no hash removal — and the message is released. -/
theorem claim_C5_stale_ack_no_mutation (ext : Externals) (node : Nat) (m : Msg)
    (rw : RwRequest) (t : Nat)
    (h : (m.tid = some t ∧ t ≠ rw.tid) ∨ rw.dup_res_complete = true) :
    (dup_res_handle_ack ext node m rw).rw = rw ∧
    (dup_res_handle_ack ext node m rw).msgPut = true ∧
    (dup_res_handle_ack ext node m rw).cbInvoked = false ∧
    (dup_res_handle_ack ext node m rw).enqueued = none ∧
    (dup_res_handle_ack ext node m rw).removedFromHash = false := by
  have h1 := dup_res_handle_ack_drop ext node m rw (by
    rcases h with ⟨hm, hne⟩ | h
    · refine Or.inr (Or.inr (Or.inr (Or.inl ?_)))
      rw [hm]
      intro he
      exact hne (Option.some.inj he)
    · exact Or.inr (Or.inr (Or.inr (Or.inr (Or.inl h)))))
  rw [h1]
  exact ⟨rfl, rfl, rfl, rfl, rfl⟩

/-- Witness for claim C5 at a concrete entry (tid 7) and an ack with tid 9. -/
theorem claim_C5_witness :
    (dup_res_handle_ack ext0 5 msg_stale rw_ex).rw = rw_ex ∧
    (dup_res_handle_ack ext0 5 msg_stale rw_ex).msgPut = true ∧
    (dup_res_handle_ack ext0 5 msg_stale rw_ex).cbInvoked = false ∧
    (dup_res_handle_ack ext0 5 msg_stale rw_ex).enqueued = none ∧
    (dup_res_handle_ack ext0 5 msg_stale rw_ex).removedFromHash = false :=
  claim_C5_stale_ack_no_mutation ext0 5 msg_stale rw_ex 9 (Or.inl ⟨rfl, by decide⟩)

/-! ## Claim C3 (corrected) -/

/-- An entry whose origin the timeout thread has already taken (`from` is
null). -/
def rw_timeout : RwRequest := { rw_ex with from_any := false }

/-- An ack carrying the cluster-key-mismatch result code, which makes the
retry predicate true. -/
def msg_ckey : Msg :=
  { ns_id := some 1, digest := some 2, tid := some 7,
    result := some AS_PROTO_RESULT_FAIL_CLUSTER_KEY_MISMATCH }

/-- Counterexample to claim C3 as stated: on the retry path with `from`
null, the handler does NOT leave the entry with "no other state change" —
the peer's `dest_complete` flag was already set to true (source line 340,
before the retry decision), so the entry state differs from the state at
entry. -/
theorem claim_C3_counterexample :
    ext0.should_retry (parse_dup_meta msg_ckey).1 = true ∧
    rw_timeout.from_any = false ∧
    (dup_res_handle_ack ext0 5 msg_ckey rw_timeout).msgPut = true ∧
    (dup_res_handle_ack ext0 5 msg_ckey rw_timeout).enqueued = none ∧
    rw_timeout.dest_complete = [false] ∧
    (dup_res_handle_ack ext0 5 msg_ckey rw_timeout).rw.dest_complete = [true] ∧
    ¬ (dup_res_handle_ack ext0 5 msg_ckey rw_timeout).rw = rw_timeout := by decide

/-- Claim C3 as amended: for a guard-passing ack whose parsed result code
makes the retry predicate true — when `from` is non-null the client payload
moves out of the entry (`msgp` becomes null) into a fresh enqueued restart
transaction, `dup_res_complete` is set, the entry leaves the hash table and
`dup_res_cb` is not invoked; when `from` is null the entry and message are
released with no state change other than the peer's `dest_complete` flag,
which was set to true before the retry decision. -/
theorem claim_C3_retry_restart (ext : Externals) (node : Nat) (m : Msg)
    (rw : RwRequest) (i : Nat)
    (hA : ¬ (m.ns_id = none ∨ m.digest = none ∨ m.tid = none))
    (hB : ¬ (m.tid ≠ some rw.tid ∨ rw.dup_res_complete = true))
    (hi : index_of_node node rw.dest_nodes = some i)
    (hC : ¬ rw.dest_complete.getD i false = true)
    (hr : ext.should_retry (parse_dup_meta m).1 = true) :
    (rw.from_any = true →
      dup_res_handle_ack ext node m rw =
        ⟨{ rw with
            dest_complete := rw.dest_complete.set i true,
            msgp := none,
            dup_res_complete := true }, true, false,
          some ⟨rw.msgp, true⟩, true, false⟩) ∧
    (rw.from_any = false →
      dup_res_handle_ack ext node m rw =
        ⟨{ rw with dest_complete := rw.dest_complete.set i true }, true, false,
          none, false, false⟩) := by
  constructor
  · intro hf
    exact dup_res_handle_ack_retry ext node m rw i hA hB hi hC hr hf
  · intro hf
    exact dup_res_handle_ack_retry_null ext node m rw i hA hB hi hC hr hf

/-- Witness for the amended claim C3 at a concrete entry with its origin
present, fed a cluster-key-mismatch ack from its single peer. -/
theorem claim_C3_witness :
    (rw_ex.from_any = true →
      dup_res_handle_ack ext0 5 msg_ckey rw_ex =
        ⟨{ rw_ex with
            dest_complete := rw_ex.dest_complete.set 0 true,
            msgp := none,
            dup_res_complete := true }, true, false,
          some ⟨rw_ex.msgp, true⟩, true, false⟩) ∧
    (rw_ex.from_any = false →
      dup_res_handle_ack ext0 5 msg_ckey rw_ex =
        ⟨{ rw_ex with dest_complete := rw_ex.dest_complete.set 0 true }, true, false,
          none, false, false⟩) :=
  claim_C3_retry_restart ext0 5 msg_ckey rw_ex 0 (by decide) (by decide) (by decide)
    (by decide) (by decide)

/-! ## Claim C8 -/

/-- Claim C8: an ack whose `RESULT` field says OK but which lacks a
generation, carries generation 0, or lacks a last-update-time parses to
`UNKNOWN_FAIL`, and the peer's `dest_complete` flag is set before parsing,
so the peer still counts toward completion whatever path follows. -/
theorem claim_C8_malformed_ok_ack (ext : Externals) (node : Nat) (m : Msg)
    (rw : RwRequest) (i : Nat)
    (hA : ¬ (m.ns_id = none ∨ m.digest = none ∨ m.tid = none))
    (hB : ¬ (m.tid ≠ some rw.tid ∨ rw.dup_res_complete = true))
    (hi : index_of_node node rw.dest_nodes = some i)
    (hC : ¬ rw.dest_complete.getD i false = true)
    (hlen : rw.dest_complete.length = rw.dest_nodes.length)
    (hres : m.result = some AS_PROTO_RESULT_OK)
    (hbad : m.generation = none ∨ m.generation = some 0 ∨ m.last_update_time = none) :
    (parse_dup_meta m).1 = AS_PROTO_RESULT_FAIL_UNKNOWN ∧
    (dup_res_handle_ack ext node m rw).rw.dest_complete.getD i false = true := by
  have hilt : i < rw.dest_complete.length := by
    rw [hlen]; exact index_of_node_lt_length hi
  have hset := getD_set_self rw.dest_complete i true hilt
  constructor
  · unfold parse_dup_meta
    rw [hres]
    rcases hbad with h | h | h
    · simp [h, AS_PROTO_RESULT_OK]
    · simp [h, AS_PROTO_RESULT_OK]
    · cases hg : m.generation with
      | none => simp [AS_PROTO_RESULT_OK]
      | some g =>
        rcases Decidable.em (g = 0) with hg0 | hg0
        · simp [AS_PROTO_RESULT_OK, hg0]
        · simp [AS_PROTO_RESULT_OK, hg0, h]
  · rcases Decidable.em (ext.should_retry (parse_dup_meta m).1 = true) with hr | hr
    · rcases Decidable.em (rw.from_any = false) with hf | hf
      · rw [dup_res_handle_ack_retry_null ext node m rw i hA hB hi hC hr hf]
        exact hset
      · have hf' : rw.from_any = true := by
          cases hft : rw.from_any
          · exact absurd hft hf
          · rfl
        rw [dup_res_handle_ack_retry ext node m rw i hA hB hi hC hr hf']
        exact hset
    · have hr' : ext.should_retry (parse_dup_meta m).1 = false := by
        cases hrt : ext.should_retry (parse_dup_meta m).1
        · rfl
        · exact absurd hrt hr
      rcases Decidable.em (rw.best_dup_msg.isSome = true ∧
          as_record_resolve_conflict rw.policy rw.best_dup_gen rw.best_dup_lut
            ((parse_dup_meta m).2.1 % 65536) (parse_dup_meta m).2.2 ≤ 0) with hk | hk
      · obtain ⟨_, _, _, _, _, h6, _⟩ :=
          dup_res_handle_ack_keep ext node m rw i hA hB hi hC hr' hk
        rw [h6]
        exact hset
      · obtain ⟨_, _, _, _, _, h6, _⟩ :=
          dup_res_handle_ack_store ext node m rw i hA hB hi hC hr' hk
        rw [h6]
        exact hset

/-- An ack claiming OK but carrying generation 0. -/
def msg_ok_gen0 : Msg :=
  { ns_id := some 1, digest := some 2, tid := some 7,
    result := some AS_PROTO_RESULT_OK, generation := some 0,
    last_update_time := some 100 }

/-- Witness for claim C8 at a concrete entry fed an OK ack with
generation 0. -/
theorem claim_C8_witness :
    (parse_dup_meta msg_ok_gen0).1 = AS_PROTO_RESULT_FAIL_UNKNOWN ∧
    (dup_res_handle_ack ext0 5 msg_ok_gen0 rw_ex).rw.dest_complete.getD 0 false = true :=
  claim_C8_malformed_ok_ack ext0 5 msg_ok_gen0 rw_ex 0 (by decide) (by decide) (by decide)
    (by decide) (by decide) (by decide) (Or.inr (Or.inl (by decide)))

/-! ## Claim C9 -/

/-- Claim C9: winner application — a best ack whose record pickle is absent
or shorter than 2 bytes, or whose info bitfield marks the pickle as one to
ignore, sets the entry's `result_code` to `UNKNOWN_FAIL` without invoking
the installer; otherwise the installer runs and its benign
`RECORD_EXISTS`/`GENERATION` outcomes are mapped to `OK`. -/
theorem claim_C9_apply_winner_mapping (ext : Externals) (rw : RwRequest) (m : Msg)
    (hbest : rw.best_dup_msg = some m) :
    ((m.record = none ∨ (∃ buf, m.record = some buf ∧ buf.length < 2)) →
      (apply_winner ext rw).rw.result_code = AS_PROTO_RESULT_FAIL_UNKNOWN ∧
      (apply_winner ext rw).installed = false) ∧
    (∀ buf, m.record = some buf → ¬ buf.length < 2 →
      ext.ignore_pickle buf (m.info.getD 0) = true →
      (apply_winner ext rw).rw.result_code = AS_PROTO_RESULT_FAIL_UNKNOWN ∧
      (apply_winner ext rw).installed = false) ∧
    (∀ buf, m.record = some buf → ¬ buf.length < 2 →
      ext.ignore_pickle buf (m.info.getD 0) = false →
      (apply_winner ext rw).installed = true ∧
      ((ext.replace_if_better rw.policy rw.best_dup_gen rw.best_dup_lut buf
          (m.info.getD 0) (m.void_time.getD 0) m.set_name m.key % 256 =
            AS_PROTO_RESULT_FAIL_RECORD_EXISTS ∨
        ext.replace_if_better rw.policy rw.best_dup_gen rw.best_dup_lut buf
          (m.info.getD 0) (m.void_time.getD 0) m.set_name m.key % 256 =
            AS_PROTO_RESULT_FAIL_GENERATION) →
        (apply_winner ext rw).rw.result_code = AS_PROTO_RESULT_OK)) := by
  refine ⟨?_, ?_, ?_⟩
  · intro h
    unfold apply_winner
    rw [hbest]
    dsimp only
    rcases h with h | ⟨buf, hb, hlt⟩
    · rw [h]
      exact ⟨rfl, rfl⟩
    · rw [hb]
      dsimp only
      rw [if_pos hlt]
      exact ⟨rfl, rfl⟩
  · intro buf hb hlt hig
    unfold apply_winner
    rw [hbest]
    dsimp only
    rw [hb]
    dsimp only
    rw [if_neg hlt, if_pos hig]
    exact ⟨rfl, rfl⟩
  · intro buf hb hlt hig
    have hig' : ¬ (ext.ignore_pickle buf (m.info.getD 0) = true) := by simp [hig]
    unfold apply_winner
    rw [hbest]
    dsimp only
    rw [hb]
    dsimp only
    rw [if_neg hlt, if_neg hig']
    try dsimp only
    constructor
    · split
      · rfl
      · rfl
    · intro hbenign
      rw [if_pos hbenign]

/-- A best-candidate ack carrying a one-byte (too short) pickle. -/
def msg_short_pickle : Msg :=
  { ns_id := some 1, digest := some 2, tid := some 7,
    result := some AS_PROTO_RESULT_OK, generation := some 4,
    last_update_time := some 100, record := some [0] }

/-- The example entry holding `msg_short_pickle` as its best candidate. -/
def rw_short_best : RwRequest :=
  { rw_ex with
      best_dup_msg := some msg_short_pickle,
      best_dup_gen := 4,
      best_dup_lut := 100 }

/-- Witness for claim C9 at a concrete entry whose best ack has a one-byte
pickle. -/
theorem claim_C9_witness :
    ((msg_short_pickle.record = none ∨
      (∃ buf, msg_short_pickle.record = some buf ∧ buf.length < 2)) →
      (apply_winner ext0 rw_short_best).rw.result_code = AS_PROTO_RESULT_FAIL_UNKNOWN ∧
      (apply_winner ext0 rw_short_best).installed = false) ∧
    (∀ buf, msg_short_pickle.record = some buf → ¬ buf.length < 2 →
      ext0.ignore_pickle buf (msg_short_pickle.info.getD 0) = true →
      (apply_winner ext0 rw_short_best).rw.result_code = AS_PROTO_RESULT_FAIL_UNKNOWN ∧
      (apply_winner ext0 rw_short_best).installed = false) ∧
    (∀ buf, msg_short_pickle.record = some buf → ¬ buf.length < 2 →
      ext0.ignore_pickle buf (msg_short_pickle.info.getD 0) = false →
      (apply_winner ext0 rw_short_best).installed = true ∧
      ((ext0.replace_if_better rw_short_best.policy rw_short_best.best_dup_gen
          rw_short_best.best_dup_lut buf (msg_short_pickle.info.getD 0)
          (msg_short_pickle.void_time.getD 0) msg_short_pickle.set_name
          msg_short_pickle.key % 256 = AS_PROTO_RESULT_FAIL_RECORD_EXISTS ∨
        ext0.replace_if_better rw_short_best.policy rw_short_best.best_dup_gen
          rw_short_best.best_dup_lut buf (msg_short_pickle.info.getD 0)
          (msg_short_pickle.void_time.getD 0) msg_short_pickle.set_name
          msg_short_pickle.key % 256 = AS_PROTO_RESULT_FAIL_GENERATION) →
        (apply_winner ext0 rw_short_best).rw.result_code = AS_PROTO_RESULT_OK)) :=
  claim_C9_apply_winner_mapping ext0 rw_short_best msg_short_pickle (by decide)

/-! ## Claim C10 -/

/-- An OK ack whose generation is the 32-bit value `65536 * k`. -/
def msg_gen_wrap (k l : Nat) : Msg :=
  { ns_id := some 1, digest := some 2, tid := some 7,
    result := some AS_PROTO_RESULT_OK, generation := some (65536 * k),
    last_update_time := some l }

/-- The example entry already holding a best candidate with generation 1
and last-update-time `l`. -/
def rw_with_best (l : Nat) : RwRequest :=
  { rw_ex with best_dup_msg := some msg_ok, best_dup_gen := 1, best_dup_lut := l }

/-- Claim C10: in the best-candidate comparison the incoming generation is
reduced mod 2^16 before reaching the arbiter, while `parse_dup_meta`
accepts any non-zero 32-bit generation and the unreduced value is stored:
an OK ack with generation `65536 * k` (`k > 0`) parses as OK with the full
value, the cast zeroes it, so against a best of generation 1 (same lut,
generation policy) the ack loses and the best stays at generation 1 — yet
the same ack arriving first is stored with the non-zero unreduced
generation `65536 * k`. -/
theorem claim_C10_generation_cast_wrap (k l : Nat) (hk : 0 < k) :
    (parse_dup_meta (msg_gen_wrap k l)).1 = AS_PROTO_RESULT_OK ∧
    (parse_dup_meta (msg_gen_wrap k l)).2.1 = 65536 * k ∧
    65536 * k ≠ 0 ∧
    65536 * k % 65536 = 0 ∧
    (dup_res_handle_ack ext0 5 (msg_gen_wrap k l) (rw_with_best l)).rw.best_dup_gen = 1 ∧
    (dup_res_handle_ack ext0 5 (msg_gen_wrap k l) (rw_with_best l)).msgPut = true ∧
    (dup_res_handle_ack ext0 5 (msg_gen_wrap k l) rw_ex).rw.best_dup_gen = 65536 * k ∧
    (dup_res_handle_ack ext0 5 (msg_gen_wrap k l) rw_ex).rw.best_dup_msg =
      some (msg_gen_wrap k l) := by
  have hg : 65536 * k ≠ 0 := by omega
  have hmod : 65536 * k % 65536 = 0 := Nat.mul_mod_right 65536 k
  have hparse : parse_dup_meta (msg_gen_wrap k l) = (AS_PROTO_RESULT_OK, 65536 * k, l) := by
    unfold parse_dup_meta msg_gen_wrap
    simp [AS_PROTO_RESULT_OK, hg]
  have hp1 : (parse_dup_meta (msg_gen_wrap k l)).1 = AS_PROTO_RESULT_OK := by rw [hparse]
  have hp2 : (parse_dup_meta (msg_gen_wrap k l)).2.1 = 65536 * k := by rw [hparse]
  have hp3 : (parse_dup_meta (msg_gen_wrap k l)).2.2 = l := by rw [hparse]
  have hr : ext0.should_retry (parse_dup_meta (msg_gen_wrap k l)).1 = false := by
    rw [hp1]; rfl
  have hA : ¬ ((msg_gen_wrap k l).ns_id = none ∨ (msg_gen_wrap k l).digest = none ∨
      (msg_gen_wrap k l).tid = none) := by
    simp [msg_gen_wrap]
  refine ⟨hp1, hp2, hg, hmod, ?_, ?_, ?_, ?_⟩
  · have hkeep : (rw_with_best l).best_dup_msg.isSome = true ∧
        as_record_resolve_conflict (rw_with_best l).policy (rw_with_best l).best_dup_gen
          (rw_with_best l).best_dup_lut
          ((parse_dup_meta (msg_gen_wrap k l)).2.1 % 65536)
          (parse_dup_meta (msg_gen_wrap k l)).2.2 ≤ 0 := by
      constructor
      · rfl
      · rw [hp2, hp3, hmod]
        show as_record_resolve_conflict ConflictPolicy.generation 1 l 0 l ≤ 0
        unfold as_record_resolve_conflict resolve_component
        norm_num
    obtain ⟨_, _, _, _, _, _, _, _, _, h10, _⟩ :=
      dup_res_handle_ack_keep ext0 5 (msg_gen_wrap k l) (rw_with_best l) 0 hA
        (by simp [rw_with_best, rw_ex, dup_res_setup_rw, msg_gen_wrap])
        rfl (by simp [rw_with_best, rw_ex, dup_res_setup_rw]) hr hkeep
    rw [h10]
    rfl
  · have hkeep : (rw_with_best l).best_dup_msg.isSome = true ∧
        as_record_resolve_conflict (rw_with_best l).policy (rw_with_best l).best_dup_gen
          (rw_with_best l).best_dup_lut
          ((parse_dup_meta (msg_gen_wrap k l)).2.1 % 65536)
          (parse_dup_meta (msg_gen_wrap k l)).2.2 ≤ 0 := by
      constructor
      · rfl
      · rw [hp2, hp3, hmod]
        show as_record_resolve_conflict ConflictPolicy.generation 1 l 0 l ≤ 0
        unfold as_record_resolve_conflict resolve_component
        norm_num
    obtain ⟨_, _, _, _, _, _, _, _, _, _, _, _, h13, _⟩ :=
      dup_res_handle_ack_keep ext0 5 (msg_gen_wrap k l) (rw_with_best l) 0 hA
        (by simp [rw_with_best, rw_ex, dup_res_setup_rw, msg_gen_wrap])
        rfl (by simp [rw_with_best, rw_ex, dup_res_setup_rw]) hr hkeep
    exact h13
  · have hkeep : ¬ (rw_ex.best_dup_msg.isSome = true ∧
        as_record_resolve_conflict rw_ex.policy rw_ex.best_dup_gen rw_ex.best_dup_lut
          ((parse_dup_meta (msg_gen_wrap k l)).2.1 % 65536)
          (parse_dup_meta (msg_gen_wrap k l)).2.2 ≤ 0) := by
      intro hcon
      exact absurd hcon.1 (by decide)
    obtain ⟨_, _, _, _, _, _, _, _, _, h10, _⟩ :=
      dup_res_handle_ack_store ext0 5 (msg_gen_wrap k l) rw_ex 0 hA
        (by simp [rw_ex, dup_res_setup_rw, msg_gen_wrap])
        (by decide) (by decide) hr hkeep
    rw [h10]
    exact hp2
  · have hkeep : ¬ (rw_ex.best_dup_msg.isSome = true ∧
        as_record_resolve_conflict rw_ex.policy rw_ex.best_dup_gen rw_ex.best_dup_lut
          ((parse_dup_meta (msg_gen_wrap k l)).2.1 % 65536)
          (parse_dup_meta (msg_gen_wrap k l)).2.2 ≤ 0) := by
      intro hcon
      exact absurd hcon.1 (by decide)
    obtain ⟨_, _, _, _, _, _, _, _, h9, _⟩ :=
      dup_res_handle_ack_store ext0 5 (msg_gen_wrap k l) rw_ex 0 hA
        (by simp [rw_ex, dup_res_setup_rw, msg_gen_wrap])
        (by decide) (by decide) hr hkeep
    exact h9

/-- Witness for claim C10 at `k = 1`, `l = 0`: generation 65536 parses as
OK, is compared as 0, and is stored unreduced. -/
theorem claim_C10_witness :
    (parse_dup_meta (msg_gen_wrap 1 0)).1 = AS_PROTO_RESULT_OK ∧
    (parse_dup_meta (msg_gen_wrap 1 0)).2.1 = 65536 * 1 ∧
    65536 * 1 ≠ 0 ∧
    65536 * 1 % 65536 = 0 ∧
    (dup_res_handle_ack ext0 5 (msg_gen_wrap 1 0) (rw_with_best 0)).rw.best_dup_gen = 1 ∧
    (dup_res_handle_ack ext0 5 (msg_gen_wrap 1 0) (rw_with_best 0)).msgPut = true ∧
    (dup_res_handle_ack ext0 5 (msg_gen_wrap 1 0) rw_ex).rw.best_dup_gen = 65536 * 1 ∧
    (dup_res_handle_ack ext0 5 (msg_gen_wrap 1 0) rw_ex).rw.best_dup_msg =
      some (msg_gen_wrap 1 0) :=
  claim_C10_generation_cast_wrap 1 0 (by decide)

/-! ## Claim C6 (corrected) -/

/-- A responder environment whose namespace lookup always succeeds and
whose partition tree has no record for the digest. -/
def env_no_rec : ResponderEnv :=
  { lookup_ns := fun _ => some ⟨ConflictPolicy.generation⟩,
    record := none, load_n_bins := 0, load_bins := 0 }

/-- A request with digest and a known namespace but no `TID` field. -/
def msg_no_tid : Msg :=
  { ns_id := some 1, digest := some 1, namespace_name := some [110] }

/-- Counterexample to claim C6 as stated: the responder never checks the
`TID` field — a request missing only `tid` is NOT answered with a
bad-request ack; the partition is reserved, the record looked up, and (here)
`NOT_FOUND` is acked. -/
theorem claim_C6_counterexample :
    msg_no_tid.tid = none ∧
    (dup_res_handle_request env_no_rec msg_no_tid).reserved = true ∧
    (dup_res_handle_request env_no_rec msg_no_tid).recordAccessed = true ∧
    (dup_res_handle_request env_no_rec msg_no_tid).ack.result =
      some AS_PROTO_RESULT_FAIL_NOT_FOUND ∧
    ¬ (dup_res_handle_request env_no_rec msg_no_tid).ack.result =
      some AS_PROTO_RESULT_FAIL_UNKNOWN := by decide

/-- Claim C6 as amended: a request whose digest field or namespace field is
missing, or whose namespace name is unknown (the responder does not check
the tid field), is answered by an ack with `OP = DUP_ACK` and
`RESULT = UNKNOWN_FAIL` carrying only the preserved identity fields, with no
partition reservation and no record access. -/
theorem claim_C6_bad_request_ack (env : ResponderEnv) (m : Msg)
    (h : m.digest = none ∨ m.namespace_name = none ∨
      (∀ nm, m.namespace_name = some nm → env.lookup_ns nm = none)) :
    (dup_res_handle_request env m).ack.op = some RW_OP_DUP_ACK ∧
    (dup_res_handle_request env m).ack.result = some AS_PROTO_RESULT_FAIL_UNKNOWN ∧
    (dup_res_handle_request env m).ack.ns_id = m.ns_id ∧
    (dup_res_handle_request env m).ack.digest = m.digest ∧
    (dup_res_handle_request env m).ack.tid = m.tid ∧
    (dup_res_handle_request env m).ack.namespace_name = none ∧
    (dup_res_handle_request env m).ack.cluster_key = none ∧
    (dup_res_handle_request env m).ack.generation = none ∧
    (dup_res_handle_request env m).ack.last_update_time = none ∧
    (dup_res_handle_request env m).ack.void_time = none ∧
    (dup_res_handle_request env m).ack.record = none ∧
    (dup_res_handle_request env m).ack.set_name = none ∧
    (dup_res_handle_request env m).ack.key = none ∧
    (dup_res_handle_request env m).ack.info = none ∧
    (dup_res_handle_request env m).reserved = false ∧
    (dup_res_handle_request env m).recordAccessed = false := by
  have hbad : dup_res_handle_request env m =
      ⟨send_ack_for_bad_request m, false, false, false⟩ := by
    unfold dup_res_handle_request
    rcases h with h | h | h
    · rw [if_pos h]
    · rcases Decidable.em (m.digest = none) with hd | hd
      · rw [if_pos hd]
      · rw [if_neg hd, if_pos h]
    · rcases Decidable.em (m.digest = none) with hd | hd
      · rw [if_pos hd]
      · rcases Decidable.em (m.namespace_name = none) with hn | hn
        · rw [if_neg hd, if_pos hn]
        · rw [if_neg hd, if_neg hn]
          cases hnm : m.namespace_name with
          | none => exact absurd hnm hn
          | some nm =>
            have := h nm hnm
            dsimp only [Option.getD_some]
            rw [this]
  rw [hbad]
  exact ⟨rfl, rfl, rfl, rfl, rfl, rfl, rfl, rfl, rfl, rfl, rfl, rfl, rfl, rfl, rfl, rfl⟩

/-- A request missing its digest field. -/
def msg_no_digest : Msg :=
  { ns_id := some 1, namespace_name := some [110], tid := some 7 }

/-- Witness for the amended claim C6 at a concrete digestless request. -/
theorem claim_C6_witness :
    (dup_res_handle_request env_no_rec msg_no_digest).ack.op = some RW_OP_DUP_ACK ∧
    (dup_res_handle_request env_no_rec msg_no_digest).ack.result =
      some AS_PROTO_RESULT_FAIL_UNKNOWN ∧
    (dup_res_handle_request env_no_rec msg_no_digest).ack.ns_id = msg_no_digest.ns_id ∧
    (dup_res_handle_request env_no_rec msg_no_digest).ack.digest = msg_no_digest.digest ∧
    (dup_res_handle_request env_no_rec msg_no_digest).ack.tid = msg_no_digest.tid ∧
    (dup_res_handle_request env_no_rec msg_no_digest).ack.namespace_name = none ∧
    (dup_res_handle_request env_no_rec msg_no_digest).ack.cluster_key = none ∧
    (dup_res_handle_request env_no_rec msg_no_digest).ack.generation = none ∧
    (dup_res_handle_request env_no_rec msg_no_digest).ack.last_update_time = none ∧
    (dup_res_handle_request env_no_rec msg_no_digest).ack.void_time = none ∧
    (dup_res_handle_request env_no_rec msg_no_digest).ack.record = none ∧
    (dup_res_handle_request env_no_rec msg_no_digest).ack.set_name = none ∧
    (dup_res_handle_request env_no_rec msg_no_digest).ack.key = none ∧
    (dup_res_handle_request env_no_rec msg_no_digest).ack.info = none ∧
    (dup_res_handle_request env_no_rec msg_no_digest).reserved = false ∧
    (dup_res_handle_request env_no_rec msg_no_digest).recordAccessed = false :=
  claim_C6_bad_request_ack env_no_rec msg_no_digest (Or.inl (by decide))

/-! ## Claim C7 -/

/-- Claim C7: when the request carries both a coordinator generation and
last-update-time and the arbiter says the coordinator's pair is greater than
or equal to the local record's pair (result ≤ 0 with the coordinator on the
left), the responder releases its resources and acks `RECORD_EXISTS` on
equality and `GENERATION` when the coordinator strictly wins, attaching no
record data. -/
theorem claim_C7_local_precheck (env : ResponderEnv) (m : Msg) (d : Nat) (nm : List Nat)
    (ns : Namespace) (r : LocalRecord) (cg cl : Nat)
    (hd : m.digest = some d) (hnm : m.namespace_name = some nm)
    (hns : env.lookup_ns nm = some ns) (hrec : env.record = some r)
    (hg : m.generation = some cg) (hl : m.last_update_time = some cl)
    (hle : as_record_resolve_conflict ns.policy cg cl r.generation r.last_update_time ≤ 0) :
    (dup_res_handle_request env m).released = true ∧
    (dup_res_handle_request env m).ack.op = some RW_OP_DUP_ACK ∧
    (dup_res_handle_request env m).ack.result = some
      (if as_record_resolve_conflict ns.policy cg cl r.generation r.last_update_time = 0
        then AS_PROTO_RESULT_FAIL_RECORD_EXISTS else AS_PROTO_RESULT_FAIL_GENERATION) ∧
    (dup_res_handle_request env m).ack.record = none ∧
    (dup_res_handle_request env m).ack.generation = none ∧
    (dup_res_handle_request env m).ack.last_update_time = none ∧
    (dup_res_handle_request env m).ack.set_name = none ∧
    (dup_res_handle_request env m).ack.key = none ∧
    (dup_res_handle_request env m).ack.void_time = none ∧
    (dup_res_handle_request env m).ack.info = none ∧
    (dup_res_handle_request env m).ack.ns_id = m.ns_id ∧
    (dup_res_handle_request env m).ack.digest = m.digest ∧
    (dup_res_handle_request env m).ack.tid = m.tid := by
  have hd' : ¬ m.digest = none := by rw [hd]; intro h; exact Option.noConfusion h
  have hn' : ¬ m.namespace_name = none := by rw [hnm]; intro h; exact Option.noConfusion h
  have heq : dup_res_handle_request env m =
      ⟨send_dup_res_ack (msg_preserve_identity m)
        (if as_record_resolve_conflict ns.policy cg cl r.generation r.last_update_time = 0
          then AS_PROTO_RESULT_FAIL_RECORD_EXISTS else AS_PROTO_RESULT_FAIL_GENERATION),
        true, true, true⟩ := by
    unfold dup_res_handle_request
    rw [if_neg hd', if_neg hn', hnm]
    dsimp only [Option.getD_some]
    rw [hns]
    dsimp only
    rw [hrec]
    dsimp only
    rw [hg, hl]
    dsimp only [Option.getD_some, Option.isSome_some, Bool.and_self]
    rw [if_pos ⟨rfl, hle⟩]
  rw [heq]
  exact ⟨rfl, rfl, rfl, rfl, rfl, rfl, rfl, rfl, rfl, rfl, rfl, rfl, rfl⟩

/-- A responder environment holding a local record with generation 4,
last-update-time 200. -/
def env_with_rec : ResponderEnv :=
  { lookup_ns := fun _ => some ⟨ConflictPolicy.generation⟩,
    record := some ⟨4, 200, 0, none, none, [1, 2, 3], 0⟩,
    load_n_bins := 0, load_bins := 0 }

/-- A request whose coordinator metadata (generation 4, lut 200) equals the
local record's. -/
def msg_precheck : Msg :=
  { ns_id := some 1, digest := some 1, namespace_name := some [110], tid := some 7,
    generation := some 4, last_update_time := some 200 }

/-- Witness for claim C7 at a concrete equal-metadata request: the arbiter
answers Equal and the responder acks `RECORD_EXISTS` with no record data. -/
theorem claim_C7_witness :
    (dup_res_handle_request env_with_rec msg_precheck).released = true ∧
    (dup_res_handle_request env_with_rec msg_precheck).ack.op = some RW_OP_DUP_ACK ∧
    (dup_res_handle_request env_with_rec msg_precheck).ack.result = some
      (if as_record_resolve_conflict ConflictPolicy.generation 4 200 4 200 = 0
        then AS_PROTO_RESULT_FAIL_RECORD_EXISTS else AS_PROTO_RESULT_FAIL_GENERATION) ∧
    (dup_res_handle_request env_with_rec msg_precheck).ack.record = none ∧
    (dup_res_handle_request env_with_rec msg_precheck).ack.generation = none ∧
    (dup_res_handle_request env_with_rec msg_precheck).ack.last_update_time = none ∧
    (dup_res_handle_request env_with_rec msg_precheck).ack.set_name = none ∧
    (dup_res_handle_request env_with_rec msg_precheck).ack.key = none ∧
    (dup_res_handle_request env_with_rec msg_precheck).ack.void_time = none ∧
    (dup_res_handle_request env_with_rec msg_precheck).ack.info = none ∧
    (dup_res_handle_request env_with_rec msg_precheck).ack.ns_id = msg_precheck.ns_id ∧
    (dup_res_handle_request env_with_rec msg_precheck).ack.digest = msg_precheck.digest ∧
    (dup_res_handle_request env_with_rec msg_precheck).ack.tid = msg_precheck.tid :=
  claim_C7_local_precheck env_with_rec msg_precheck 1 [110]
    ⟨ConflictPolicy.generation⟩ ⟨4, 200, 0, none, none, [1, 2, 3], 0⟩ 4 200
    (by decide) (by decide) (by decide) (by decide) (by decide) (by decide) (by decide)

/-! ## Claim C2 (corrected) -/

/-- An ack is "accepted into the best-candidate slot" when every guard
passes, the retry predicate is false, and the keep-previous-best comparison
does not retain the old best (duplicate_resolve.c lines 376-397). -/
def AckAccepted (ext : Externals) (node : Nat) (m : Msg) (rw : RwRequest) : Prop :=
  ¬ (m.ns_id = none ∨ m.digest = none ∨ m.tid = none) ∧
  ¬ (m.tid ≠ some rw.tid ∨ rw.dup_res_complete = true) ∧
  (match index_of_node node rw.dest_nodes with
   | none => False
   | some i =>
     ¬ rw.dest_complete.getD i false = true ∧
     ext.should_retry (parse_dup_meta m).1 = false ∧
     ¬ (rw.best_dup_msg.isSome = true ∧
       as_record_resolve_conflict rw.policy rw.best_dup_gen rw.best_dup_lut
         ((parse_dup_meta m).2.1 % 65536) (parse_dup_meta m).2.2 ≤ 0))

/-- An ack carrying a non-OK result (`NOT_FOUND`). -/
def msg_notfound : Msg :=
  { ns_id := some 1, digest := some 2, tid := some 7,
    result := some AS_PROTO_RESULT_FAIL_NOT_FOUND }

/-- Counterexample to claim C2 as stated: feeding a fresh entry a single
`NOT_FOUND` ack — no ack with result OK is ever accepted — still leaves
`best_dup_msg` non-null, because the keep-previous-best comparison only
retains an existing best and the first accepted ack of any result code is
stored. -/
theorem claim_C2_counterexample :
    rw_ex.best_dup_msg = none ∧
    msg_notfound.result = some AS_PROTO_RESULT_FAIL_NOT_FOUND ∧
    ¬ msg_notfound.result = some AS_PROTO_RESULT_OK ∧
    (dup_res_handle_ack ext0 5 msg_notfound rw_ex).rw.best_dup_msg = some msg_notfound ∧
    (dup_res_handle_ack ext0 5 msg_notfound rw_ex).rw.best_dup_result_code =
      AS_PROTO_RESULT_FAIL_NOT_FOUND := by decide

/-- Claim C2 as amended: `best_dup_msg` is non-null iff at least one ack of
ANY result code (not only OK) has been accepted into the best-candidate
slot; each `dup_res_handle_ack` call either stores the incoming message as
best — releasing the previous best if there was one — or releases the
incoming message, so the slot always owns exactly one message buffer. -/
theorem claim_C2_best_msg_ownership (ext : Externals) (node : Nat) (m : Msg)
    (rw : RwRequest) :
    ((dup_res_handle_ack ext node m rw).rw.best_dup_msg.isSome = true ↔
      (rw.best_dup_msg.isSome = true ∨ AckAccepted ext node m rw)) ∧
    ((dup_res_handle_ack ext node m rw).msgPut = false ↔ AckAccepted ext node m rw) ∧
    ((dup_res_handle_ack ext node m rw).prevBestPut = true ↔
      (AckAccepted ext node m rw ∧ rw.best_dup_msg.isSome = true)) ∧
    (AckAccepted ext node m rw → (dup_res_handle_ack ext node m rw).rw.best_dup_msg = some m) := by
  rcases Decidable.em (m.ns_id = none ∨ m.digest = none ∨ m.tid = none) with hA | hA
  · have hacc : ¬ AckAccepted ext node m rw := fun hc => hc.1 hA
    have h1 := dup_res_handle_ack_drop ext node m rw (by
      rcases hA with h | h | h
      · exact Or.inl h
      · exact Or.inr (Or.inl h)
      · exact Or.inr (Or.inr (Or.inl h)))
    rw [h1]
    exact ⟨by simp [hacc], by simp [hacc], by simp [hacc], fun h => absurd h hacc⟩
  · rcases Decidable.em (m.tid ≠ some rw.tid ∨ rw.dup_res_complete = true) with hB | hB
    · have hacc : ¬ AckAccepted ext node m rw := fun hc => hc.2.1 hB
      have h1 := dup_res_handle_ack_drop ext node m rw (by
        rcases hB with h | h
        · exact Or.inr (Or.inr (Or.inr (Or.inl h)))
        · exact Or.inr (Or.inr (Or.inr (Or.inr (Or.inl h)))))
      rw [h1]
      exact ⟨by simp [hacc], by simp [hacc], by simp [hacc], fun h => absurd h hacc⟩
    · cases hidx : index_of_node node rw.dest_nodes with
      | none =>
        have hacc : ¬ AckAccepted ext node m rw := by
          intro hc
          have := hc.2.2
          rw [hidx] at this
          exact this
        have h1 := dup_res_handle_ack_drop ext node m rw
          (Or.inr (Or.inr (Or.inr (Or.inr (Or.inr (Or.inl hidx))))))
        rw [h1]
        exact ⟨by simp [hacc], by simp [hacc], by simp [hacc], fun h => absurd h hacc⟩
      | some i =>
        have hacciff : AckAccepted ext node m rw ↔
            (¬ rw.dest_complete.getD i false = true ∧
             ext.should_retry (parse_dup_meta m).1 = false ∧
             ¬ (rw.best_dup_msg.isSome = true ∧
               as_record_resolve_conflict rw.policy rw.best_dup_gen rw.best_dup_lut
                 ((parse_dup_meta m).2.1 % 65536) (parse_dup_meta m).2.2 ≤ 0)) := by
          constructor
          · intro hc
            have := hc.2.2
            rw [hidx] at this
            exact this
          · intro hc
            exact ⟨hA, hB, by rw [hidx]; exact hc⟩
        rcases Decidable.em (rw.dest_complete.getD i false = true) with hC | hC
        · have hacc : ¬ AckAccepted ext node m rw := fun hc =>
            (hacciff.mp hc).1 hC
          have h1 := dup_res_handle_ack_drop ext node m rw
            (Or.inr (Or.inr (Or.inr (Or.inr (Or.inr (Or.inr ⟨i, hidx, hC⟩))))))
          rw [h1]
          exact ⟨by simp [hacc], by simp [hacc], by simp [hacc], fun h => absurd h hacc⟩
        · rcases Decidable.em (ext.should_retry (parse_dup_meta m).1 = true) with hr | hr
          · have hacc : ¬ AckAccepted ext node m rw := by
              intro hc
              have := (hacciff.mp hc).2.1
              rw [hr] at this
              exact Bool.noConfusion this
            rcases Decidable.em (rw.from_any = false) with hf | hf
            · rw [dup_res_handle_ack_retry_null ext node m rw i hA hB hidx hC hr hf]
              exact ⟨by simp [hacc], by simp [hacc], by simp [hacc], fun h => absurd h hacc⟩
            · have hf' : rw.from_any = true := by
                cases hft : rw.from_any
                · exact absurd hft hf
                · rfl
              rw [dup_res_handle_ack_retry ext node m rw i hA hB hidx hC hr hf']
              exact ⟨by simp [hacc], by simp [hacc], by simp [hacc], fun h => absurd h hacc⟩
          · have hr' : ext.should_retry (parse_dup_meta m).1 = false := by
              cases hrt : ext.should_retry (parse_dup_meta m).1
              · rfl
              · exact absurd hrt hr
            rcases Decidable.em (rw.best_dup_msg.isSome = true ∧
                as_record_resolve_conflict rw.policy rw.best_dup_gen rw.best_dup_lut
                  ((parse_dup_meta m).2.1 % 65536) (parse_dup_meta m).2.2 ≤ 0) with hk | hk
            · have hacc : ¬ AckAccepted ext node m rw := fun hc =>
                (hacciff.mp hc).2.2 hk
              obtain ⟨_, _, _, _, _, _, _, _, h9, _, _, _, h13, h14⟩ :=
                dup_res_handle_ack_keep ext node m rw i hA hB hidx hC hr' hk
              refine ⟨?_, ?_, ?_, fun h => absurd h hacc⟩
              · rw [h9]
                simp [hacc]
              · rw [h13]
                simp [hacc]
              · rw [h14]
                simp [hacc]
            · have hacc : AckAccepted ext node m rw := hacciff.mpr ⟨hC, hr', hk⟩
              obtain ⟨_, _, _, _, _, _, _, _, h9, _, _, _, h13, h14⟩ :=
                dup_res_handle_ack_store ext node m rw i hA hB hidx hC hr' hk
              refine ⟨?_, ?_, ?_, fun _ => h9⟩
              · rw [h9]
                simp [hacc]
              · rw [h13]
                simp [hacc]
              · rw [h14]
                simp [hacc]

/-- Witness for the amended claim C2 at a fresh concrete entry and a
concrete `NOT_FOUND` ack, which is accepted and stored. -/
theorem claim_C2_witness :
    ((dup_res_handle_ack ext0 5 msg_notfound rw_ex).rw.best_dup_msg.isSome = true ↔
      (rw_ex.best_dup_msg.isSome = true ∨ AckAccepted ext0 5 msg_notfound rw_ex)) ∧
    ((dup_res_handle_ack ext0 5 msg_notfound rw_ex).msgPut = false ↔
      AckAccepted ext0 5 msg_notfound rw_ex) ∧
    ((dup_res_handle_ack ext0 5 msg_notfound rw_ex).prevBestPut = true ↔
      (AckAccepted ext0 5 msg_notfound rw_ex ∧ rw_ex.best_dup_msg.isSome = true)) ∧
    (AckAccepted ext0 5 msg_notfound rw_ex →
      (dup_res_handle_ack ext0 5 msg_notfound rw_ex).rw.best_dup_msg = some msg_notfound) :=
  claim_C2_best_msg_ownership ext0 5 msg_notfound rw_ex

/-! ## Order properties of the arbiter -/

theorem resolve_key_le (pol : ConflictPolicy) (a b c d : Nat) :
    (as_record_resolve_conflict pol a b c d ≤ 0 ↔
      (match pol with
       | .generation => c % 65536 < a % 65536 ∨ (c % 65536 = a % 65536 ∧ d ≤ b)
       | .lastUpdateTime => d < b ∨ (d = b ∧ c % 65536 ≤ a % 65536))) := by
  cases pol <;>
    (unfold as_record_resolve_conflict resolve_component
     dsimp only
     split_ifs <;> omega)

theorem resolve_antisymm (pol : ConflictPolicy) (a b c d : Nat) :
    as_record_resolve_conflict pol a b c d = - as_record_resolve_conflict pol c d a b := by
  cases pol <;>
    (unfold as_record_resolve_conflict resolve_component
     dsimp only
     split_ifs <;> omega)

theorem resolve_eq_zero_iff (pol : ConflictPolicy) (a b c d : Nat) :
    as_record_resolve_conflict pol a b c d = 0 ↔ (a % 65536 = c % 65536 ∧ b = d) := by
  cases pol <;>
    (unfold as_record_resolve_conflict resolve_component
     dsimp only
     split_ifs <;>
       first
       | omega
       | (simp only [false_iff, iff_false, true_iff, iff_true]; omega))

theorem resolve_mod_right (pol : ConflictPolicy) (a b c d : Nat) :
    as_record_resolve_conflict pol a b (c % 65536) d =
      as_record_resolve_conflict pol a b c d := by
  have h : c % 65536 % 65536 = c % 65536 :=
    Nat.mod_eq_of_lt (Nat.mod_lt c (by norm_num))
  cases pol <;>
    (unfold as_record_resolve_conflict
     dsimp only
     rw [h])

theorem resolve_refl_le (pol : ConflictPolicy) (a b : Nat) :
    as_record_resolve_conflict pol a b a b ≤ 0 := by
  rw [resolve_key_le]
  cases pol <;> simp

theorem resolve_total (pol : ConflictPolicy) (a b c d : Nat) :
    as_record_resolve_conflict pol a b c d ≤ 0 ∨
      as_record_resolve_conflict pol c d a b ≤ 0 := by
  rw [resolve_key_le, resolve_key_le]
  cases pol <;> (dsimp only; omega)

theorem resolve_trans_le (pol : ConflictPolicy) (a b c d e f : Nat)
    (h1 : as_record_resolve_conflict pol a b c d ≤ 0)
    (h2 : as_record_resolve_conflict pol c d e f ≤ 0) :
    as_record_resolve_conflict pol a b e f ≤ 0 := by
  rw [resolve_key_le] at h1 h2 ⊢
  cases pol <;> (dsimp only at h1 h2 ⊢; omega)

/-! ## More list lemmas for the coverage invariant -/

theorem index_of_node_of_mem {a : Nat} {l : List Nat} (h : a ∈ l) :
    ∃ i, index_of_node a l = some i := by
  induction l with
  | nil => simp at h
  | cons x t ih =>
    unfold index_of_node
    rcases Decidable.em (x = a) with hx | hx
    · exact ⟨0, by rw [if_pos hx]⟩
    · have ht : a ∈ t := by
        rcases List.mem_cons.mp h with h | h
        · exact absurd h.symm hx
        · exact h
      rcases ih ht with ⟨j, hj⟩
      exact ⟨j + 1, by rw [if_neg hx, hj]; rfl⟩

theorem index_of_node_get {a : Nat} :
    ∀ {l : List Nat} {i : Nat} (h : index_of_node a l = some i),
      l.get ⟨i, index_of_node_lt_length h⟩ = a := by
  intro l
  induction l with
  | nil => intro i h; simp [index_of_node] at h
  | cons x t ih =>
    intro i h
    have h' := h
    unfold index_of_node at h'
    split at h'
    next hx =>
      cases h'
      exact hx
    next hx =>
      rcases Option.map_eq_some'.mp h' with ⟨j, hj, hji⟩
      subst hji
      exact ih hj

theorem getD_map (f : Nat → Bool) :
    ∀ (l : List Nat) (i : Nat) (h : i < l.length),
      (l.map f).getD i false = f (l.get ⟨i, h⟩) := by
  intro l
  induction l with
  | nil => intro i h; simp at h
  | cons x t ih =>
    intro i h
    cases i with
    | zero => rfl
    | succ j =>
      have hj : j < t.length := by simpa using h
      simpa using ih j hj

theorem set_map_eq (g f : Nat → Bool) (a : Nat) :
    ∀ (l : List Nat) (i : Nat), l.Nodup → index_of_node a l = some i →
      g a = true → (∀ x, x ≠ a → f x = g x) →
      (l.map f).set i true = l.map g := by
  intro l
  induction l with
  | nil => intro i _ h; simp [index_of_node] at h
  | cons x t ih =>
    intro i hnd h hga hother
    have h' := h
    unfold index_of_node at h'
    split at h'
    next hx =>
      cases h'
      have hnotmem : x ∉ t := (List.nodup_cons.mp hnd).1
      have hgx : g x = true := by rw [hx]; exact hga
      have htail : t.map f = t.map g := by
        apply List.map_congr_left
        intro y hy
        refine hother y ?_
        intro he
        apply hnotmem
        rw [hx, ← he]
        exact hy
      simp [List.set, hgx, htail]
    next hx =>
      rcases Option.map_eq_some'.mp h' with ⟨j, hj, hji⟩
      subst hji
      have hxa : x ≠ a := hx
      have hx' : f x = g x := hother x hxa
      have := ih j (List.nodup_cons.mp hnd).2 hj hga hother
      simp [List.set, hx', this]

theorem all_map_false {f : Nat → Bool} {l : List Nat} {b : Nat}
    (hb : b ∈ l) (hfb : f b = false) :
    (l.map f).all (fun x => x) = false := by
  cases hall : (l.map f).all (fun x => x) with
  | false => rfl
  | true =>
    exfalso
    have := List.all_eq_true.mp hall (f b) (List.mem_map_of_mem f hb)
    rw [hfb] at this
    exact Bool.noConfusion this

/-! ## Best-candidate fold -/

/-- The `(best_dup_gen, best_dup_lut)` pair tracked while a best message is
held, or none before the first accepted ack. -/
def best_state (rw : RwRequest) : Option (Nat × Nat) :=
  match rw.best_dup_msg with
  | none => none
  | some _ => some (rw.best_dup_gen, rw.best_dup_lut)

/-- The caller-visible metadata an ack contributes to the best comparison:
the `generation`/`last_update_time` values left by `parse_dup_meta`. -/
def ack_meta (m : Msg) : Nat × Nat := ((parse_dup_meta m).2.1, (parse_dup_meta m).2.2)

/-- One incorporate-candidate step (duplicate_resolve.c lines 376-397) on
the tracked pair: keep the previous best when it exists and the arbiter does
not rank the newcomer strictly higher, else take the newcomer. -/
def best_step (pol : ConflictPolicy) (b : Option (Nat × Nat)) (x : Nat × Nat) :
    Option (Nat × Nat) :=
  match b with
  | none => some x
  | some p =>
    if as_record_resolve_conflict pol p.1 p.2 x.1 x.2 ≤ 0 then some p else some x

theorem best_fold_some (pol : ConflictPolicy) :
    ∀ (L : List (Nat × Nat)) (b0 : Nat × Nat),
      ∃ b, L.foldl (best_step pol) (some b0) = some b ∧
        (b = b0 ∨ b ∈ L) ∧
        as_record_resolve_conflict pol b.1 b.2 b0.1 b0.2 ≤ 0 ∧
        ∀ x ∈ L, as_record_resolve_conflict pol b.1 b.2 x.1 x.2 ≤ 0 := by
  intro L
  induction L with
  | nil =>
    intro b0
    exact ⟨b0, rfl, Or.inl rfl, resolve_refl_le pol b0.1 b0.2, by simp⟩
  | cons x t ih =>
    intro b0
    rcases Decidable.em (as_record_resolve_conflict pol b0.1 b0.2 x.1 x.2 ≤ 0) with hx | hx
    · have hstep : (x :: t).foldl (best_step pol) (some b0) =
          t.foldl (best_step pol) (some b0) := by
        simp [best_step, hx]
      rcases ih b0 with ⟨b, hfold, hmem, hb0, hall⟩
      refine ⟨b, by rw [hstep]; exact hfold, ?_, hb0, ?_⟩
      · rcases hmem with h | h
        · exact Or.inl h
        · exact Or.inr (List.mem_cons_of_mem x h)
      · intro y hy
        rcases List.mem_cons.mp hy with h | h
        · subst h
          exact resolve_trans_le pol b.1 b.2 b0.1 b0.2 y.1 y.2 hb0 hx
        · exact hall y h
    · have hx' : as_record_resolve_conflict pol x.1 x.2 b0.1 b0.2 ≤ 0 := by
        rcases resolve_total pol b0.1 b0.2 x.1 x.2 with h | h
        · exact absurd h hx
        · exact h
      have hstep : (x :: t).foldl (best_step pol) (some b0) =
          t.foldl (best_step pol) (some x) := by
        simp [best_step, hx]
      rcases ih x with ⟨b, hfold, hmem, hbx, hall⟩
      refine ⟨b, by rw [hstep]; exact hfold, ?_, ?_, ?_⟩
      · rcases hmem with h | h
        · exact Or.inr (by rw [h]; exact List.mem_cons_self x t)
        · exact Or.inr (List.mem_cons_of_mem x h)
      · exact resolve_trans_le pol b.1 b.2 x.1 x.2 b0.1 b0.2 hbx hx'
      · intro y hy
        rcases List.mem_cons.mp hy with h | h
        · subst h
          exact hbx
        · exact hall y h

theorem best_fold_none (pol : ConflictPolicy) (L : List (Nat × Nat)) (hne : L ≠ []) :
    ∃ b, L.foldl (best_step pol) none = some b ∧ b ∈ L ∧
      ∀ x ∈ L, as_record_resolve_conflict pol b.1 b.2 x.1 x.2 ≤ 0 := by
  cases L with
  | nil => exact absurd rfl hne
  | cons x t =>
    have hstep : (x :: t).foldl (best_step pol) none = t.foldl (best_step pol) (some x) := rfl
    rcases best_fold_some pol t x with ⟨b, hfold, hmem, hbx, hall⟩
    refine ⟨b, by rw [hstep]; exact hfold, ?_, ?_⟩
    · rcases hmem with h | h
      · subst h
        exact List.mem_cons_self b t
      · exact List.mem_cons_of_mem x h
    · intro y hy
      rcases List.mem_cons.mp hy with h | h
      · subst h
        exact hbx
      · exact hall y h

/-! ## Parse shape lemmas -/

theorem parse_dup_meta_ok {m : Msg} {g l : Nat}
    (hres : m.result = some AS_PROTO_RESULT_OK)
    (hg : m.generation = some g) (hg0 : g ≠ 0) (hl : m.last_update_time = some l) :
    parse_dup_meta m = (AS_PROTO_RESULT_OK, g, l) := by
  simp [parse_dup_meta, hres, hg, hl, hg0, AS_PROTO_RESULT_OK]

theorem parse_dup_meta_bad {m : Msg} {rc : Nat}
    (hres : m.result = some rc) (hrc : rc ≠ AS_PROTO_RESULT_OK) :
    parse_dup_meta m = (rc, 0, 0) := by
  simp [parse_dup_meta, hres, hrc]

/-! ## Field tracking through a guard-passing non-retry ack -/

theorem dup_res_handle_ack_noretry_fields (ext : Externals) (node : Nat) (m : Msg)
    (rw : RwRequest) (i : Nat)
    (hA : ¬ (m.ns_id = none ∨ m.digest = none ∨ m.tid = none))
    (hB : ¬ (m.tid ≠ some rw.tid ∨ rw.dup_res_complete = true))
    (hi : index_of_node node rw.dest_nodes = some i)
    (hC : ¬ rw.dest_complete.getD i false = true)
    (hr : ext.should_retry (parse_dup_meta m).1 = false) :
    (dup_res_handle_ack ext node m rw).rw.tid = rw.tid ∧
    (dup_res_handle_ack ext node m rw).rw.dest_nodes = rw.dest_nodes ∧
    (dup_res_handle_ack ext node m rw).rw.policy = rw.policy ∧
    (dup_res_handle_ack ext node m rw).rw.dest_complete = rw.dest_complete.set i true ∧
    ((rw.dest_complete.set i true).all (fun b => b) = false →
      (dup_res_handle_ack ext node m rw).rw.dup_res_complete = false) ∧
    best_state (dup_res_handle_ack ext node m rw).rw =
      best_step rw.policy (best_state rw) (ack_meta m) := by
  rcases Decidable.em (rw.best_dup_msg.isSome = true ∧
      as_record_resolve_conflict rw.policy rw.best_dup_gen rw.best_dup_lut
        ((parse_dup_meta m).2.1 % 65536) (parse_dup_meta m).2.2 ≤ 0) with hk | hk
  · obtain ⟨h1, h2, h3, _, _, h6, _, h8, h9, h10, h11, _⟩ :=
      dup_res_handle_ack_keep ext node m rw i hA hB hi hC hr hk
    refine ⟨h1, h2, h3, h6, fun ha => (h8 ha).1, ?_⟩
    cases hb : rw.best_dup_msg with
    | none =>
      exfalso
      rw [hb] at hk
      exact Bool.noConfusion hk.1
    | some w =>
      have hle : as_record_resolve_conflict rw.policy rw.best_dup_gen rw.best_dup_lut
          (ack_meta m).1 (ack_meta m).2 ≤ 0 := by
        have := hk.2
        rwa [resolve_mod_right] at this
      have hlhs : best_state (dup_res_handle_ack ext node m rw).rw =
          some (rw.best_dup_gen, rw.best_dup_lut) := by
        unfold best_state
        rw [h9, hb, h10, h11]
      rw [hlhs]
      unfold best_state best_step
      rw [hb]
      dsimp only
      rw [if_pos hle]
  · obtain ⟨h1, h2, h3, _, _, h6, _, h8, h9, h10, h11, _⟩ :=
      dup_res_handle_ack_store ext node m rw i hA hB hi hC hr hk
    refine ⟨h1, h2, h3, h6, fun ha => (h8 ha).1, ?_⟩
    have hlhs : best_state (dup_res_handle_ack ext node m rw).rw = some (ack_meta m) := by
      unfold best_state
      rw [h9, h10, h11]
      rfl
    rw [hlhs]
    cases hb : rw.best_dup_msg with
    | none =>
      unfold best_state best_step
      rw [hb]
    | some w =>
      have hgt : ¬ as_record_resolve_conflict rw.policy rw.best_dup_gen rw.best_dup_lut
          (ack_meta m).1 (ack_meta m).2 ≤ 0 := by
        intro hle
        apply hk
        constructor
        · rw [hb]; rfl
        · rwa [resolve_mod_right]
      unfold best_state best_step
      rw [hb]
      dsimp only
      rw [if_neg hgt]

/-! ## Well-formed acks -/

/-- A well-formed OK ack: result OK, a non-zero generation that fits the
u16 generation of the data model, and a last-update-time. -/
def OkAck (m : Msg) : Prop :=
  m.result = some AS_PROTO_RESULT_OK ∧
  (∃ g, m.generation = some g ∧ 0 < g ∧ g < 65536) ∧
  (∃ l, m.last_update_time = some l)

/-- A non-OK ack whose result code does not trigger a transaction retry. -/
def BadAck (ext : Externals) (m : Msg) : Prop :=
  ∃ rc, m.result = some rc ∧ rc ≠ AS_PROTO_RESULT_OK ∧ ext.should_retry rc = false

/-- A well-formed ack for an entry with tid `t`. -/
def WellFormedAck (ext : Externals) (t : Nat) (m : Msg) : Prop :=
  m.ns_id ≠ none ∧ m.digest ≠ none ∧ m.tid = some t ∧ (OkAck m ∨ BadAck ext m)

theorem ok_ack_parse {m : Msg} (h : OkAck m) :
    ∃ g l, 0 < g ∧ g < 65536 ∧ parse_dup_meta m = (AS_PROTO_RESULT_OK, g, l) := by
  obtain ⟨hres, ⟨g, hg, hg0, hglt⟩, ⟨l, hl⟩⟩ := h
  exact ⟨g, l, hg0, hglt, parse_dup_meta_ok hres hg (by omega) hl⟩

theorem bad_ack_parse {ext : Externals} {m : Msg} (h : BadAck ext m) :
    ∃ rc, rc ≠ AS_PROTO_RESULT_OK ∧ ext.should_retry rc = false ∧
      parse_dup_meta m = (rc, 0, 0) := by
  obtain ⟨rc, hres, hne, hret⟩ := h
  exact ⟨rc, hne, hret, parse_dup_meta_bad hres hne⟩

theorem ok_meta_not_below_zero {pol : ConflictPolicy} {g l : Nat}
    (hg0 : 0 < g) (hglt : g < 65536) :
    ¬ as_record_resolve_conflict pol 0 0 g l ≤ 0 := by
  rw [resolve_key_le]
  cases pol <;> (dsimp only; omega)

/-! ## The processing invariant -/

theorem process_acks_best (ext : Externals)
    (hok0 : ext.should_retry AS_PROTO_RESULT_OK = false) :
    ∀ (acks : List (Nat × Msg)) (rw : RwRequest),
      rw.dest_nodes.Nodup →
      (acks ≠ [] → rw.dup_res_complete = false) →
      (∀ p ∈ acks, WellFormedAck ext rw.tid p.2) →
      (acks.map Prod.fst).Nodup →
      (∀ p ∈ acks, p.1 ∈ rw.dest_nodes) →
      rw.dest_complete = rw.dest_nodes.map (fun x => decide (¬ x ∈ acks.map Prod.fst)) →
      best_state (process_acks ext acks rw) =
        (acks.map (fun p => ack_meta p.2)).foldl (best_step rw.policy) (best_state rw) := by
  intro acks
  induction acks with
  | nil => intro rw _ _ _ _ _ _; rfl
  | cons p t ih =>
    obtain ⟨a, m⟩ := p
    intro rw hnd hcomp hwf hacknd hmem hinv
    simp only [List.map_cons] at hacknd hinv
    have hw : WellFormedAck ext rw.tid m := hwf (a, m) (List.mem_cons_self _ _)
    have hcomp' : rw.dup_res_complete = false := hcomp (by simp)
    have hA : ¬ (m.ns_id = none ∨ m.digest = none ∨ m.tid = none) := by
      rintro (h | h | h)
      · exact hw.1 h
      · exact hw.2.1 h
      · rw [hw.2.2.1] at h; exact Option.noConfusion h
    have hB : ¬ (m.tid ≠ some rw.tid ∨ rw.dup_res_complete = true) := by
      rintro (h | h)
      · exact h hw.2.2.1
      · rw [hcomp'] at h; exact Bool.noConfusion h
    have hmem_a : a ∈ rw.dest_nodes := hmem (a, m) (List.mem_cons_self _ _)
    obtain ⟨i, hi⟩ := index_of_node_of_mem hmem_a
    have hilt : i < rw.dest_nodes.length := index_of_node_lt_length hi
    have hget : rw.dest_nodes.get ⟨i, hilt⟩ = a := index_of_node_get hi
    have hanotint : a ∉ t.map Prod.fst := (List.nodup_cons.mp hacknd).1
    have hC : ¬ rw.dest_complete.getD i false = true := by
      rw [hinv, getD_map _ _ _ hilt, hget]
      simp
    have hr : ext.should_retry (parse_dup_meta m).1 = false := by
      rcases hw.2.2.2 with hok | hbad
      · obtain ⟨g, l, _, _, hparse⟩ := ok_ack_parse hok
        rw [hparse]
        exact hok0
      · obtain ⟨rc, _, hret, hparse⟩ := bad_ack_parse hbad
        rw [hparse]
        exact hret
    obtain ⟨f1, f2, f3, f4, f5, f6⟩ :=
      dup_res_handle_ack_noretry_fields ext a m rw i hA hB hi hC hr
    have hset : (dup_res_handle_ack ext a m rw).rw.dest_complete =
        (dup_res_handle_ack ext a m rw).rw.dest_nodes.map
          (fun x => decide (¬ x ∈ t.map Prod.fst)) := by
      rw [f4, f2, hinv]
      apply set_map_eq _ _ a _ _ hnd hi
      · simpa using hanotint
      · intro x hxa
        simp [List.mem_cons, hxa]
    have hcomp1 : t ≠ [] → (dup_res_handle_ack ext a m rw).rw.dup_res_complete = false := by
      intro ht
      apply f5
      have hrw : rw.dest_complete.set i true =
          (dup_res_handle_ack ext a m rw).rw.dest_nodes.map
            (fun x => decide (¬ x ∈ t.map Prod.fst)) := by
        rw [← f4]
        exact hset
      rw [hrw]
      obtain ⟨p0, hp0⟩ : ∃ p0, p0 ∈ t := by
        cases t with
        | nil => exact absurd rfl ht
        | cons q s => exact ⟨q, List.mem_cons_self _ _⟩
      apply all_map_false (b := p0.1)
      · rw [f2]
        exact hmem p0 (List.mem_cons_of_mem _ hp0)
      · have hmm : p0.1 ∈ t.map Prod.fst := List.mem_map_of_mem Prod.fst hp0
        simp [hmm]
    have hIH := ih (dup_res_handle_ack ext a m rw).rw
      (by rw [f2]; exact hnd)
      hcomp1
      (fun q hq => by rw [f1]; exact hwf q (List.mem_cons_of_mem _ hq))
      (List.nodup_cons.mp hacknd).2
      (fun q hq => by rw [f2]; exact hmem q (List.mem_cons_of_mem _ hq))
      hset
    have hcons : process_acks ext ((a, m) :: t) rw =
        process_acks ext t (dup_res_handle_ack ext a m rw).rw := rfl
    rw [hcons, hIH, f3]
    simp only [List.map_cons, List.foldl_cons]
    rw [f6]

theorem best_state_pair {rw : RwRequest} {b : Nat × Nat} (h : best_state rw = some b) :
    rw.best_dup_gen = b.1 ∧ rw.best_dup_lut = b.2 := by
  unfold best_state at h
  cases hm : rw.best_dup_msg with
  | none => rw [hm] at h; exact Option.noConfusion h
  | some w =>
    rw [hm] at h
    dsimp only at h
    cases h
    exact ⟨rfl, rfl⟩

/-- On a freshly armed entry whose peers all ack exactly once, the final
tracked best pair is an OK ack's metadata and the arbiter ranks it at least
as high as every ack's metadata. -/
theorem process_acks_is_max (ext : Externals) (pol : ConflictPolicy) (t : Nat)
    (nodes : List Nat) (msgp : Option Nat) (acks : List (Nat × Msg))
    (hnd : nodes.Nodup)
    (hok0 : ext.should_retry AS_PROTO_RESULT_OK = false)
    (hcover : List.Perm (acks.map Prod.fst) nodes)
    (hwf : ∀ p ∈ acks, WellFormedAck ext t p.2)
    (hsome : ∃ p, p ∈ acks ∧ OkAck p.2) :
    ∃ b, best_state (process_acks ext acks (dup_res_setup_rw t pol nodes msgp)) = some b ∧
      0 < b.1 ∧ b.1 < 65536 ∧
      (∃ p, p ∈ acks ∧ OkAck p.2 ∧ ack_meta p.2 = b) ∧
      (∀ p ∈ acks, as_record_resolve_conflict pol b.1 b.2
        (ack_meta p.2).1 (ack_meta p.2).2 ≤ 0) := by
  have hbest := process_acks_best ext hok0 acks (dup_res_setup_rw t pol nodes msgp)
    hnd
    (fun _ => rfl)
    (fun p hp => hwf p hp)
    ((List.Perm.nodup_iff hcover).mpr hnd)
    (fun p hp => (hcover.mem_iff).mp (List.mem_map_of_mem Prod.fst hp))
    (by
      show nodes.map (fun _ => false) = nodes.map (fun x => decide (¬ x ∈ acks.map Prod.fst))
      apply List.map_congr_left
      intro x hx
      have hxm : x ∈ acks.map Prod.fst := (hcover.mem_iff).mpr hx
      simp [hxm])
  obtain ⟨p1, hp1, hok1⟩ := hsome
  have hmetane : acks.map (fun p => ack_meta p.2) ≠ [] := by
    intro h
    rw [List.map_eq_nil_iff] at h
    rw [h] at hp1
    simp at hp1
  obtain ⟨b, hfold, hbmem, hball⟩ := best_fold_none pol _ hmetane
  have hbs : best_state (process_acks ext acks (dup_res_setup_rw t pol nodes msgp)) =
      some b := by
    rw [hbest]
    exact hfold
  have hokm : ∃ p, p ∈ acks ∧ OkAck p.2 ∧ ack_meta p.2 = b := by
    obtain ⟨x, hx, hxb⟩ := List.mem_map.mp hbmem
    rcases (hwf x hx).2.2.2 with hok | hbad
    · exact ⟨x, hx, hok, hxb⟩
    · exfalso
      obtain ⟨rc, _, _, hparse⟩ := bad_ack_parse hbad
      have hb00 : b = (0, 0) := by
        rw [← hxb]
        unfold ack_meta
        rw [hparse]
      obtain ⟨g, l, hg0, hglt, hparse1⟩ := ok_ack_parse hok1
      have hmeta1 : ack_meta p1.2 = (g, l) := by
        unfold ack_meta
        rw [hparse1]
      have hle := hball (ack_meta p1.2)
        (List.mem_map_of_mem (fun p => ack_meta p.2) hp1)
      rw [hmeta1, hb00] at hle
      exact ok_meta_not_below_zero hg0 hglt hle
  obtain ⟨q, hq, hqok, hqb⟩ := hokm
  obtain ⟨g, l, hg0, hglt, hparseq⟩ := ok_ack_parse hqok
  have hbgl : b = (g, l) := by
    rw [← hqb]
    unfold ack_meta
    rw [hparseq]
  refine ⟨b, hbs, by rw [hbgl]; exact hg0, by rw [hbgl]; exact hglt, ⟨q, hq, hqok, hqb⟩, ?_⟩
  intro p hp
  exact hball (ack_meta p.2) (List.mem_map_of_mem (fun p => ack_meta p.2) hp)

/-- Claim C1: for an entry whose peers all ack exactly once (in any order),
with at least one well-formed OK ack among them, the final
`(best_dup_gen, best_dup_lut)` pair handed to winner application is the
metadata of an OK ack that the arbiter ranks at least as high as every OK
ack's metadata; if every OK ack strictly beats the local record's pair (as
the responder pre-check guarantees for the acks it answers OK), the final
pair also strictly beats the local pair, so it is the maximum over
{local record, all OK peer acks}; and the final pair does not depend on the
order in which the acks arrive. -/
theorem claim_C1_winner_is_best (ext : Externals) (pol : ConflictPolicy) (t : Nat)
    (nodes : List Nat) (msgp : Option Nat) (acks : List (Nat × Msg))
    (hnd : nodes.Nodup)
    (hok0 : ext.should_retry AS_PROTO_RESULT_OK = false)
    (hcover : List.Perm (acks.map Prod.fst) nodes)
    (hwf : ∀ p ∈ acks, WellFormedAck ext t p.2)
    (hsome : ∃ p, p ∈ acks ∧ OkAck p.2) :
    (∃ p, p ∈ acks ∧ OkAck p.2 ∧
      ack_meta p.2 =
        ((process_acks ext acks (dup_res_setup_rw t pol nodes msgp)).best_dup_gen,
         (process_acks ext acks (dup_res_setup_rw t pol nodes msgp)).best_dup_lut)) ∧
    (∀ p ∈ acks, OkAck p.2 →
      as_record_resolve_conflict pol
        (process_acks ext acks (dup_res_setup_rw t pol nodes msgp)).best_dup_gen
        (process_acks ext acks (dup_res_setup_rw t pol nodes msgp)).best_dup_lut
        (ack_meta p.2).1 (ack_meta p.2).2 ≤ 0) ∧
    (∀ lgen llut,
      (∀ p ∈ acks, OkAck p.2 →
        0 < as_record_resolve_conflict pol lgen llut (ack_meta p.2).1 (ack_meta p.2).2) →
      as_record_resolve_conflict pol
        (process_acks ext acks (dup_res_setup_rw t pol nodes msgp)).best_dup_gen
        (process_acks ext acks (dup_res_setup_rw t pol nodes msgp)).best_dup_lut
        lgen llut < 0) ∧
    (∀ acks2, List.Perm acks2 acks →
      (process_acks ext acks2 (dup_res_setup_rw t pol nodes msgp)).best_dup_gen =
        (process_acks ext acks (dup_res_setup_rw t pol nodes msgp)).best_dup_gen ∧
      (process_acks ext acks2 (dup_res_setup_rw t pol nodes msgp)).best_dup_lut =
        (process_acks ext acks (dup_res_setup_rw t pol nodes msgp)).best_dup_lut) := by
  obtain ⟨b, hbs, hbg0, hbglt, ⟨q, hq, hqok, hqb⟩, hball⟩ :=
    process_acks_is_max ext pol t nodes msgp acks hnd hok0 hcover hwf hsome
  obtain ⟨hgen, hlut⟩ := best_state_pair hbs
  have hpair : ((process_acks ext acks (dup_res_setup_rw t pol nodes msgp)).best_dup_gen,
      (process_acks ext acks (dup_res_setup_rw t pol nodes msgp)).best_dup_lut) = b := by
    rw [hgen, hlut]
  refine ⟨⟨q, hq, hqok, by rw [hpair]; exact hqb⟩, ?_, ?_, ?_⟩
  · intro p hp _
    rw [hgen, hlut]
    exact hball p hp
  · intro lgen llut h
    have h1 := h q hq hqok
    rw [hqb] at h1
    have h2 := resolve_antisymm pol b.1 b.2 lgen llut
    rw [hgen, hlut]
    omega
  · intro acks2 hperm
    have hcover2 : List.Perm (acks2.map Prod.fst) nodes :=
      (hperm.map Prod.fst).trans hcover
    have hwf2 : ∀ p ∈ acks2, WellFormedAck ext t p.2 :=
      fun p hp => hwf p (hperm.mem_iff.mp hp)
    have hsome2 : ∃ p, p ∈ acks2 ∧ OkAck p.2 :=
      ⟨q, hperm.mem_iff.mpr hq, hqok⟩
    obtain ⟨b2, hbs2, hb2g0, hb2glt, ⟨q2, hq2, hq2ok, hq2b⟩, hball2⟩ :=
      process_acks_is_max ext pol t nodes msgp acks2 hnd hok0 hcover2 hwf2 hsome2
    obtain ⟨hgen2, hlut2⟩ := best_state_pair hbs2
    have e1 : as_record_resolve_conflict pol b.1 b.2 b2.1 b2.2 ≤ 0 := by
      have he := hball q2 (hperm.mem_iff.mp hq2)
      rwa [hq2b] at he
    have e2 : as_record_resolve_conflict pol b2.1 b2.2 b.1 b.2 ≤ 0 := by
      have he := hball2 q (hperm.mem_iff.mpr hq)
      rwa [hqb] at he
    have e0 : as_record_resolve_conflict pol b.1 b.2 b2.1 b2.2 = 0 := by
      have ha := resolve_antisymm pol b.1 b.2 b2.1 b2.2
      omega
    have heq := (resolve_eq_zero_iff pol b.1 b.2 b2.1 b2.2).mp e0
    have hm1 := Nat.mod_eq_of_lt hbglt
    have hm2 := Nat.mod_eq_of_lt hb2glt
    constructor
    · rw [hgen2, hgen]
      omega
    · rw [hlut2, hlut]
      omega

/-- Scenario S3, peer A: OK with generation 4, last-update-time 300. -/
def msg_s3a : Msg :=
  { ns_id := some 1, digest := some 2, tid := some 7,
    result := some AS_PROTO_RESULT_OK, generation := some 4,
    last_update_time := some 300 }

/-- Scenario S3, peer B: OK with generation 4, last-update-time 250. -/
def msg_s3b : Msg :=
  { ns_id := some 1, digest := some 2, tid := some 7,
    result := some AS_PROTO_RESULT_OK, generation := some 4,
    last_update_time := some 250 }

/-- Scenario S3's ack sequence: peer 5 then peer 6. -/
def acks_s3 : List (Nat × Msg) := [(5, msg_s3a), (6, msg_s3b)]

/-- Witness for claim C1 at scenario S3: two peers, LUT-priority policy,
gen 4 / lut 300 versus gen 4 / lut 250. -/
theorem claim_C1_witness :
    (∃ p, p ∈ acks_s3 ∧ OkAck p.2 ∧
      ack_meta p.2 =
        ((process_acks ext0 acks_s3
            (dup_res_setup_rw 7 ConflictPolicy.lastUpdateTime [5, 6] (some 3))).best_dup_gen,
         (process_acks ext0 acks_s3
            (dup_res_setup_rw 7 ConflictPolicy.lastUpdateTime [5, 6] (some 3))).best_dup_lut)) ∧
    (∀ p ∈ acks_s3, OkAck p.2 →
      as_record_resolve_conflict ConflictPolicy.lastUpdateTime
        (process_acks ext0 acks_s3
          (dup_res_setup_rw 7 ConflictPolicy.lastUpdateTime [5, 6] (some 3))).best_dup_gen
        (process_acks ext0 acks_s3
          (dup_res_setup_rw 7 ConflictPolicy.lastUpdateTime [5, 6] (some 3))).best_dup_lut
        (ack_meta p.2).1 (ack_meta p.2).2 ≤ 0) ∧
    (∀ lgen llut,
      (∀ p ∈ acks_s3, OkAck p.2 →
        0 < as_record_resolve_conflict ConflictPolicy.lastUpdateTime lgen llut
          (ack_meta p.2).1 (ack_meta p.2).2) →
      as_record_resolve_conflict ConflictPolicy.lastUpdateTime
        (process_acks ext0 acks_s3
          (dup_res_setup_rw 7 ConflictPolicy.lastUpdateTime [5, 6] (some 3))).best_dup_gen
        (process_acks ext0 acks_s3
          (dup_res_setup_rw 7 ConflictPolicy.lastUpdateTime [5, 6] (some 3))).best_dup_lut
        lgen llut < 0) ∧
    (∀ acks2, List.Perm acks2 acks_s3 →
      (process_acks ext0 acks2
          (dup_res_setup_rw 7 ConflictPolicy.lastUpdateTime [5, 6] (some 3))).best_dup_gen =
        (process_acks ext0 acks_s3
          (dup_res_setup_rw 7 ConflictPolicy.lastUpdateTime [5, 6] (some 3))).best_dup_gen ∧
      (process_acks ext0 acks2
          (dup_res_setup_rw 7 ConflictPolicy.lastUpdateTime [5, 6] (some 3))).best_dup_lut =
        (process_acks ext0 acks_s3
          (dup_res_setup_rw 7 ConflictPolicy.lastUpdateTime [5, 6] (some 3))).best_dup_lut) :=
  claim_C1_winner_is_best ext0 ConflictPolicy.lastUpdateTime 7 [5, 6] (some 3) acks_s3
    (by decide) (by decide) (by decide)
    (by
      intro p hp
      rcases List.mem_cons.mp hp with h | hp2
      · subst h
        exact ⟨by decide, by decide, rfl,
          Or.inl ⟨rfl, ⟨4, rfl, by omega, by omega⟩, ⟨300, rfl⟩⟩⟩
      · rcases List.mem_cons.mp hp2 with h | hp3
        · subst h
          exact ⟨by decide, by decide, rfl,
            Or.inl ⟨rfl, ⟨4, rfl, by omega, by omega⟩, ⟨250, rfl⟩⟩⟩
        · simp at hp3)
    ⟨(5, msg_s3a), by decide,
      ⟨rfl, ⟨4, rfl, by omega, by omega⟩, ⟨300, rfl⟩⟩⟩

end DupRes
